import Mathlib

/-!
Shallow embedding of the emergent-life particle simulation.

Source files embedded here:
* src/simulation/simulation.ts (the later, fixed-catalog revision of the
  Simulation class: binder physics, seeded reaction catalog, lifespans);
* src/simulation/particles.ts (SubstrateParticle with a lifespan counter,
  EnergyParticle);
* the matching types module (numeric particle-type enum with Binder,
  SimulationParams, Reaction);
* src/simulation/worker.ts (the structure-of-arrays worker with the
  inactiveIndices free pool and the simulationRunning guard).

Modelling conventions:
* JavaScript numbers are real numbers; Math.random() is an explicit
  stream of draws (`Rand`) threaded through every function that draws.
* A JavaScript Map is an insertion-ordered association list (`JsMap`):
  `set` of an existing key overwrites in place, otherwise appends;
  iteration follows list order, exactly like JS Map insertion order.
  In-place mutation of an object held in a map is an update of its
  entry keyed by its id (`jsUpdate`).
* The string reaction key `t1-t2` (canonically ordered) is modelled by
  the ordered pair (min, max), which carries the same information.
* Typed arrays in the worker are Lists with functional `List.set`.
-/

set_option maxHeartbeats 1000000
set_option linter.unusedSectionVars false

noncomputable section

namespace EmergentLife

/-- A stream of Math.random() draws together with a cursor. -/
structure Rand where
  s : ℕ → ℝ
  k : ℕ

/-- One call of Math.random(): yields the next draw and advances. -/
def Rand.next (r : Rand) : ℝ × Rand := (r.s r.k, ⟨r.s, r.k + 1⟩)

/-- The numeric particle-type enum of the later types module:
A:0, B:1, C:2, D:3, Binder:4, Attractor:5, E:6, Energy:7. -/
abbrev PType := ℕ

namespace PType

def A : PType := 0

def B : PType := 1

def C : PType := 2

def D : PType := 3

def Binder : PType := 4

def Attractor : PType := 5

def E : PType := 6

def Energy : PType := 7

end PType

/-- Math.hypot. -/
def hypot (a b : ℝ) : ℝ := Real.sqrt (a ^ 2 + b ^ 2)

/-- The damping factor computed once per collision pass:
`Math.sqrt(Math.max(0, 1 - collisionEnergyLossPct / 100))`. -/
def lossFactor (pct : ℝ) : ℝ := Real.sqrt (max 0 (1 - pct / 100))

/-- Result of resolving one unordered collision pair: the two positions
and the two pending step vectors after the pass body. -/
structure CollisionOut where
  px : ℝ
  py : ℝ
  qx : ℝ
  qy : ℝ
  v1x : ℝ
  v1y : ℝ
  v2x : ℝ
  v2y : ℝ

/-- The body of the collision-resolution loop of
`Simulation.updateAndMoveParticles` for one pair (p, q), from the guard
`if (dist >= 2 * r || dist <= 1e-6) continue` down to the positional
correction.  `loss` is the precomputed `lossFactor`. -/
def resolveCollision (r loss : ℝ) (pType qType : PType)
    (px py qx qy v1x v1y v2x v2y : ℝ) : CollisionOut :=
  let dx := qx - px
  let dy := qy - py
  let dist := hypot dx dy
  if dist ≥ 2 * r ∨ dist ≤ 1e-6 then ⟨px, py, qx, qy, v1x, v1y, v2x, v2y⟩
  else
    let nx := dx / dist
    let ny := dy / dist
    let overlap := 2 * r - dist
    if pType = PType.Binder ∨ qType = PType.Binder then
      if pType = PType.Binder ∧ qType ≠ PType.Binder then
        -- place q tangent to p, dissipate the step of q
        ⟨px, py, px + nx * (2 * r), py + ny * (2 * r), v1x, v1y, 0, 0⟩
      else if qType = PType.Binder ∧ pType ≠ PType.Binder then
        ⟨qx - nx * (2 * r), qy - ny * (2 * r), qx, qy, 0, 0, v2x, v2y⟩
      else
        -- binder-binder: separate equally and zero both steps
        ⟨px - nx * overlap * 0.5, py - ny * overlap * 0.5,
         qx + nx * overlap * 0.5, qy + ny * overlap * 0.5, 0, 0, 0, 0⟩
    else
      -- elastic collision with damping for two non-binders
      let v1n := v1x * nx + v1y * ny
      let v2n := v2x * nx + v2y * ny
      let tx := -ny
      let ty := nx
      let v1t := v1x * tx + v1y * ty
      let v2t := v2x * tx + v2y * ty
      let v1nP := v2n * loss
      let v2nP := v1n * loss
      let corr := overlap * 0.5
      ⟨px - nx * corr, py - ny * corr, qx + nx * corr, qy + ny * corr,
       v1t * tx + v1nP * nx, v1t * ty + v1nP * ny,
       v2t * tx + v2nP * nx, v2t * ty + v2nP * ny⟩

/-! ## Insertion-ordered maps: the JavaScript Map

A JS Map is an association list in insertion order; `set` of an existing
key overwrites its entry in place, otherwise appends at the end;
iteration (`values()`, `for..of`) follows that order.  Mutating an object
obtained from the map mutates the stored entry (`jsUpdate`). -/

abbrev JsMap (κ α : Type) := List (κ × α)

/-- Map.get. -/
def jsGet {κ α : Type} [DecidableEq κ] (m : JsMap κ α) (k : κ) : Option α :=
  (m.find? fun kv => decide (kv.1 = k)).map (·.2)

/-- Map.has. -/
def jsHas {κ α : Type} [DecidableEq κ] (m : JsMap κ α) (k : κ) : Bool :=
  m.any fun kv => decide (kv.1 = k)

/-- Map.set: overwrite in place when present, append when absent. -/
def jsSet {κ α : Type} [DecidableEq κ] (m : JsMap κ α) (k : κ) (v : α) : JsMap κ α :=
  if jsHas m k then m.map fun kv => if kv.1 = k then (k, v) else kv
  else m ++ [(k, v)]

/-- In-place mutation of the object stored under a key. -/
def jsUpdate {κ α : Type} [DecidableEq κ] (m : JsMap κ α) (k : κ) (f : α → α) : JsMap κ α :=
  m.map fun kv => if kv.1 = k then (kv.1, f kv.2) else kv

/-- Map.values() as a list, in insertion order. -/
def jsValues {κ α : Type} (m : JsMap κ α) : List α := m.map (·.2)

/-! ## Data model of the later Simulation revision -/

/-- SimulationParams of the later types module (part of the simplified
physics model).  Counts are naturals, all physical quantities reals, the
lifespan an integer tick count. -/
structure SimulationParams where
  Lx : ℝ
  Ly : ℝ
  particleCountA : ℕ
  particleCountB : ℕ
  particleCountC : ℕ
  particleCountD : ℕ
  particleCountE : ℕ
  particleCountBinder : ℕ
  energyParticleCount : ℕ
  particleRadius : ℝ
  randomStepMagnitudeX : ℝ
  collisionEnergyLossPct : ℝ
  binderForceUnitDistanceInR : ℝ
  reactionDistanceInR : ℝ
  binderQuorumRadiusInR : ℝ
  binderQuorumSoftCap : ℝ
  energyPulsePeriodFrames : ℕ
  current : ℝ
  attractorForceUnitDistanceInR : ℝ
  particleLifespan : ℤ

/-- A reaction record of the catalog. -/
structure Reaction where
  reactant1 : PType
  reactant2 : PType
  catalyst : PType
  product1 : PType
  product2 : PType
  efficiency : ℝ

/-- SubstrateParticle (particles.ts): id, position, active flag,
visualization energy, type tag and remaining lifespan. -/
structure SubstrateParticle where
  id : ℕ
  x : ℝ
  y : ℝ
  active : Bool
  energy : ℝ
  type : PType
  lifespan : ℤ

/-- The SubstrateParticle constructor: active, with visualization energy 0. -/
def SubstrateParticle.mkNew (id : ℕ) (x y : ℝ) (type : PType) (initialLifespan : ℤ) :
    SubstrateParticle :=
  ⟨id, x, y, true, 0, type, initialLifespan⟩

/-- SubstrateParticle.update(): decrement the lifespan; at zero or below
the particle dissolves. -/
def SubstrateParticle.update (p : SubstrateParticle) : SubstrateParticle :=
  let p' := { p with lifespan := p.lifespan - 1 }
  if p'.lifespan ≤ 0 then { p' with active := false } else p'

/-- EnergyParticle (particles.ts): id, position, active flag. -/
structure EnergyParticle where
  id : ℕ
  x : ℝ
  y : ℝ
  active : Bool

/-- The EnergyParticle constructor. -/
def EnergyParticle.mkNew (id : ℕ) (x y : ℝ) : EnergyParticle := ⟨id, x, y, true⟩

/-- The full private state of a Simulation instance. -/
structure SimState where
  params : SimulationParams
  Lx : ℝ
  Ly : ℝ
  particles : JsMap ℕ SubstrateParticle
  energyParticles : JsMap ℕ EnergyParticle
  reactionCatalog : JsMap (ℕ × ℕ) Reaction
  frameCount : ℕ
  nextId : ℕ
  totalReactions : ℕ

/-- Class constant `energyInflowPerTick = 2`. -/
def energyInflowPerTick : ℕ := 2

/-- Class constant `energyFlowVelocity = 60`. -/
def energyFlowVelocity : ℝ := 60

/-- Class constant `energyTurbulence = 0.4`. -/
def energyTurbulence : ℝ := 0.4

/-- getReactionKey: the canonical string key `t1-t2` (types sorted) is
modelled by the sorted pair, which carries the same information. -/
def getReactionKey (t1 t2 : PType) : ℕ × ℕ := if t1 < t2 then (t1, t2) else (t2, t1)

/-- seedFixedReactions: the hand-authored fixed catalog, written into the
freshly cleared catalog during initialization. -/
def seedFixedReactions (m : JsMap (ℕ × ℕ) Reaction) : JsMap (ℕ × ℕ) Reaction :=
  let add := fun (m : JsMap (ℕ × ℕ) Reaction) (a b catalyst p1 p2 : PType) (eff : ℝ) =>
    jsSet m (getReactionKey a b) ⟨a, b, catalyst, p1, p2, eff⟩
  -- autocatalytic base loops
  let m := add m PType.A PType.B PType.A PType.A PType.A 0.5
  let m := add m PType.B PType.C PType.B PType.B PType.B 0.5
  let m := add m PType.C PType.D PType.C PType.C PType.C 0.5
  let m := add m PType.D PType.A PType.D PType.D PType.D 0.5
  -- cross-pair binder production pathways
  let m := add m PType.A PType.C PType.A PType.Binder PType.A 0.3
  let m := add m PType.B PType.D PType.B PType.Binder PType.B 0.3
  -- binder-catalyzed replication
  let m := add m PType.A PType.Binder PType.Binder PType.A PType.A 0.7
  let m := add m PType.B PType.Binder PType.Binder PType.B PType.B 0.7
  let m := add m PType.C PType.Binder PType.Binder PType.C PType.C 0.6
  let m := add m PType.D PType.Binder PType.Binder PType.D PType.D 0.6
  m

/-- createInitialParticles: spawn `count` particles of one type in the
middle 60% of the canvas, consuming two draws each. -/
def createInitialParticles (P : SimulationParams) (Lx Ly : ℝ) (type : PType) :
    ℕ → JsMap ℕ SubstrateParticle → ℕ → Rand → JsMap ℕ SubstrateParticle × ℕ × Rand
  | 0, ps, nid, r => (ps, nid, r)
  | n + 1, ps, nid, r =>
    let (u1, r) := r.next
    let (u2, r) := r.next
    let x := Lx * (0.2 + u1 * 0.6)
    let y := Ly * (0.2 + u2 * 0.6)
    let ps := jsSet ps nid (SubstrateParticle.mkNew nid x y type P.particleLifespan)
    createInitialParticles P Lx Ly type n ps (nid + 1) r

/-- The initial-energy loop of initialize(): spawn near the left edge. -/
def spawnInitialEnergy (Lx Ly : ℝ) :
    ℕ → JsMap ℕ EnergyParticle → ℕ → Rand → JsMap ℕ EnergyParticle × ℕ × Rand
  | 0, es, nid, r => (es, nid, r)
  | n + 1, es, nid, r =>
    let (u1, r) := r.next
    let (u2, r) := r.next
    let es := jsSet es nid (EnergyParticle.mkNew nid (u1 * (Lx * 0.1)) (u2 * Ly))
    spawnInitialEnergy Lx Ly n es (nid + 1) r

/-- Simulation.initialize(): clear all stores and counters, seed the fixed
catalog, create the initial substrate populations (A, B, C, D, Binder)
and the initial energy particles.  (The name initialize is reserved in
this development, hence initState.) -/
def Simulation.initState (r : Rand) (s : SimState) : Rand × SimState :=
  let catalog := seedFixedReactions []
  let a1 := createInitialParticles s.params s.Lx s.Ly PType.A s.params.particleCountA [] 0 r
  let a2 := createInitialParticles s.params s.Lx s.Ly PType.B s.params.particleCountB
    a1.1 a1.2.1 a1.2.2
  let a3 := createInitialParticles s.params s.Lx s.Ly PType.C s.params.particleCountC
    a2.1 a2.2.1 a2.2.2
  let a4 := createInitialParticles s.params s.Lx s.Ly PType.D s.params.particleCountD
    a3.1 a3.2.1 a3.2.2
  let a5 := createInitialParticles s.params s.Lx s.Ly PType.Binder s.params.particleCountBinder
    a4.1 a4.2.1 a4.2.2
  let a6 := spawnInitialEnergy s.Lx s.Ly s.params.energyParticleCount [] a5.2.1 a5.2.2
  let ps := a5.1
  let es := a6.1
  let nid := a6.2.1
  let r := a6.2.2
  (r, { s with
        particles := ps
        energyParticles := es
        reactionCatalog := catalog
        frameCount := 0
        nextId := nid
        totalReactions := 0 })

/-! ## updateAndMoveParticles: lifespans, energy flow, simplified physics -/

/-- One energy particle's flow update: constant rightward drift, random
vertical turbulence, periodic wrap in y, deactivation past the right
edge.  Inactive particles are skipped (no draw). -/
def energyFlowStep (Lx Ly : ℝ) (e : EnergyParticle) (r : Rand) : EnergyParticle × Rand :=
  if e.active then
    let x := e.x + energyFlowVelocity * 1.0 / 60.0
    let (u, r) := r.next
    let y := e.y + (u - 0.5) * energyTurbulence
    let y := if y < 0 then y + Ly else y
    let y := if y > Ly then y - Ly else y
    let act := if x > Lx then false else e.active
    ({ e with x := x, y := y, active := act }, r)
  else (e, r)

/-- The energy-flow loop over the energy store, in iteration order. -/
def energyFlowAll (Lx Ly : ℝ) :
    JsMap ℕ EnergyParticle → Rand → JsMap ℕ EnergyParticle × Rand
  | [], r => ([], r)
  | kv :: rest, r =>
    let (e, r) := energyFlowStep Lx Ly kv.2 r
    let (tail, r) := energyFlowAll Lx Ly rest r
    ((kv.1, e) :: tail, r)

/-- The spatial-hash cell key of a position. -/
def cellKey (cellSize x y : ℝ) : ℤ × ℤ := (⌊x / cellSize⌋, ⌊y / cellSize⌋)

/-- Insert a particle id into its grid bucket (push to an existing bucket,
else create it). -/
def gridInsert (g : JsMap (ℤ × ℤ) (List ℕ)) (key : ℤ × ℤ) (id : ℕ) :
    JsMap (ℤ × ℤ) (List ℕ) :=
  match jsGet g key with
  | some _ => jsUpdate g key (fun arr => arr ++ [id])
  | none => jsSet g key [id]

/-- Build the grid from (id, x, y) rows in iteration order.  The source
stores object references; ids plus a position lookup carry the same
information. -/
def buildGrid (cellSize : ℝ) :
    List (ℕ × ℝ × ℝ) → JsMap (ℤ × ℤ) (List ℕ) → JsMap (ℤ × ℤ) (List ℕ)
  | [], g => g
  | (id, x, y) :: rest, g => buildGrid cellSize rest (gridInsert g (cellKey cellSize x y) id)

/-- Current position of a particle id (entries are never missing when the
source dereferences them; the default is irrelevant junk). -/
def posOf (ps : JsMap ℕ SubstrateParticle) (id : ℕ) : ℝ × ℝ :=
  match jsGet ps id with
  | some p => (p.x, p.y)
  | none => (0, 0)

/-- The 3x3 block of cells around a center cell, in the scan order of the
source (outer ix, inner iy). -/
def cellsAround (c : ℤ × ℤ) : List (ℤ × ℤ) :=
  [(c.1 - 1, c.2 - 1), (c.1 - 1, c.2), (c.1 - 1, c.2 + 1),
   (c.1, c.2 - 1), (c.1, c.2), (c.1, c.2 + 1),
   (c.1 + 1, c.2 - 1), (c.1 + 1, c.2), (c.1 + 1, c.2 + 1)]

/-- getNeighbors: ids in the 3x3 cell block within `radius + 1e-6` of the
query point. -/
def getNeighbors (cellSize radius : ℝ) (grid : JsMap (ℤ × ℤ) (List ℕ))
    (ps : JsMap ℕ SubstrateParticle) (x y : ℝ) : List ℕ :=
  (cellsAround (cellKey cellSize x y)).foldl
    (fun res c =>
      match jsGet grid c with
      | none => res
      | some arr => res ++ arr.filter fun id =>
          let q := posOf ps id
          decide (hypot (q.1 - x) (q.2 - y) ≤ radius + 1e-6))
    []

/-- stepX.get(id) || 0. -/
def stepGet (m : JsMap ℕ ℝ) (id : ℕ) : ℝ := (jsGet m id).getD 0

/-- Base random step of fixed magnitude and uniform direction, one draw
per active particle. -/
def baseSteps (X : ℝ) :
    List SubstrateParticle → JsMap ℕ ℝ → JsMap ℕ ℝ → Rand →
      JsMap ℕ ℝ × JsMap ℕ ℝ × Rand
  | [], sx, sy, r => (sx, sy, r)
  | p :: rest, sx, sy, r =>
    let (u, r) := r.next
    let angle := u * Real.pi * 2
    let sx := jsSet sx p.id (Real.cos angle * X)
    let sy := jsSet sy p.id (Real.sin angle * X)
    baseSteps X rest sx sy r

/-- The binder-attraction inner loop for one particle p over its neighbor
ids: inverse-square pull toward each Binder neighbor, normalized to the
base magnitude at the configured multiple of radii, distance clamped
near contact. -/
def binderAttraction (P : SimulationParams) (binderRange : ℝ)
    (ps : JsMap ℕ SubstrateParticle) (p : SubstrateParticle) :
    List ℕ → JsMap ℕ ℝ × JsMap ℕ ℝ → JsMap ℕ ℝ × JsMap ℕ ℝ
  | [], acc => acc
  | qid :: rest, (sx, sy) =>
    let acc :=
      match jsGet ps qid with
      | none => (sx, sy)
      | some q =>
        if p.id = q.id then (sx, sy)
        else if q.type ≠ PType.Binder then (sx, sy)
        else
          let dx := q.x - p.x
          let dy := q.y - p.y
          let dist := hypot dx dy
          if dist < 1e-6 then (sx, sy)
          else
            let dClamped := max dist (2 * P.particleRadius)
            let unitX := dx / dist
            let unitY := dy / dist
            let mag := P.randomStepMagnitudeX * (binderRange / dClamped) ^ 2
            (jsSet sx p.id (stepGet sx p.id + unitX * mag),
             jsSet sy p.id (stepGet sy p.id + unitY * mag))
    binderAttraction P binderRange ps p rest acc

/-- The binder-attraction outer loop over the active snapshot. -/
def binderAttractionAll (P : SimulationParams) (cellSize binderRange : ℝ)
    (grid : JsMap (ℤ × ℤ) (List ℕ)) (ps : JsMap ℕ SubstrateParticle) :
    List SubstrateParticle → JsMap ℕ ℝ × JsMap ℕ ℝ → JsMap ℕ ℝ × JsMap ℕ ℝ
  | [], acc => acc
  | p :: rest, acc =>
    let neigh := getNeighbors cellSize binderRange grid ps p.x p.y
    binderAttractionAll P cellSize binderRange grid ps rest
      (binderAttraction P binderRange ps p neigh acc)

/-- Apply the pending steps tentatively to the active particles. -/
def applySteps (sx sy : JsMap ℕ ℝ) :
    List ℕ → JsMap ℕ SubstrateParticle → JsMap ℕ SubstrateParticle
  | [], ps => ps
  | id :: rest, ps =>
    applySteps sx sy rest
      (jsUpdate ps id fun p => { p with x := p.x + stepGet sx id, y := p.y + stepGet sy id })

/-- neighborsForCollision: everything in the 3x3 cell block around the
current position of p, with no distance prefilter. -/
def neighborsForCollision (cellSize : ℝ) (grid : JsMap (ℤ × ℤ) (List ℕ))
    (ps : JsMap ℕ SubstrateParticle) (pid : ℕ) : List ℕ :=
  let c := posOf ps pid
  (cellsAround (cellKey cellSize c.1 c.2)).foldl
    (fun res cell =>
      match jsGet grid cell with
      | none => res
      | some arr => res ++ arr)
    []

/-- The collision body for one (p, q) candidate: skipped unless
`q.id > p.id`; otherwise `resolveCollision` yields the new positions and
pending steps, which are written back.  (In branches where the source
leaves a value untouched, `resolveCollision` returns it unchanged, so the
uniform write-back stores identical contents.) -/
def collidePair (P : SimulationParams) (loss : ℝ)
    (st : JsMap ℕ SubstrateParticle × JsMap ℕ ℝ × JsMap ℕ ℝ) (pid qid : ℕ) :
    JsMap ℕ SubstrateParticle × JsMap ℕ ℝ × JsMap ℕ ℝ :=
  match jsGet st.1 pid, jsGet st.1 qid with
  | some p, some q =>
    if q.id ≤ p.id then st
    else
      let out := resolveCollision P.particleRadius loss p.type q.type p.x p.y q.x q.y
        (stepGet st.2.1 p.id) (stepGet st.2.2 p.id)
        (stepGet st.2.1 q.id) (stepGet st.2.2 q.id)
      (jsUpdate (jsUpdate st.1 p.id fun a => { a with x := out.px, y := out.py })
         q.id fun a => { a with x := out.qx, y := out.qy },
       jsSet (jsSet st.2.1 p.id out.v1x) q.id out.v2x,
       jsSet (jsSet st.2.2 p.id out.v1y) q.id out.v2y)
  | _, _ => st

/-- The collision outer loop over the active ids. -/
def collideAll (P : SimulationParams) (loss cellSize : ℝ)
    (grid : JsMap (ℤ × ℤ) (List ℕ)) :
    List ℕ → JsMap ℕ SubstrateParticle × JsMap ℕ ℝ × JsMap ℕ ℝ →
      JsMap ℕ SubstrateParticle × JsMap ℕ ℝ × JsMap ℕ ℝ
  | [], st => st
  | pid :: rest, st =>
    let neigh := neighborsForCollision cellSize grid st.1 pid
    collideAll P loss cellSize grid rest
      (neigh.foldl (fun st qid => collidePair P loss st pid qid) st)

/-- Boundary enforcement: periodic wrap in y, clamp in x. -/
def enforceBounds (Lx Ly : ℝ) :
    List ℕ → JsMap ℕ SubstrateParticle → JsMap ℕ SubstrateParticle
  | [], ps => ps
  | id :: rest, ps =>
    enforceBounds Lx Ly rest
      (jsUpdate ps id fun p =>
        let y := if p.y < 0 then p.y + Ly else p.y
        let y := if y > Ly then y - Ly else y
        let x := if p.x < 0 then (0 : ℝ) else p.x
        let x := if x > Lx then Lx else x
        { p with x := x, y := y })

/-- Simulation.updateAndMoveParticles: lifespan updates, energy flow,
base random steps, binder attraction, tentative application, grid
rebuild, collision resolution, boundary enforcement. -/
def Simulation.updateAndMoveParticles (r : Rand) (s : SimState) : Rand × SimState :=
  let ps := s.particles.map fun kv => if kv.2.active then (kv.1, kv.2.update) else kv
  let ef := energyFlowAll s.Lx s.Ly s.energyParticles r
  let es := ef.1
  let r := ef.2
  let active := (ps.map (·.2)).filter fun p => p.active
  if active.length = 0 then (r, { s with particles := ps, energyParticles := es })
  else
    let rad := s.params.particleRadius
    let binderRange := s.params.binderForceUnitDistanceInR * rad
    let cellSize := max (2 * rad) binderRange
    let grid := buildGrid cellSize (active.map fun p => (p.id, p.x, p.y)) []
    let bs := baseSteps s.params.randomStepMagnitudeX active [] [] r
    let r := bs.2.2
    let sxy := binderAttractionAll s.params cellSize binderRange grid ps active (bs.1, bs.2.1)
    let ps := applySteps sxy.1 sxy.2 (active.map (·.id)) ps
    let grid2 := buildGrid cellSize
      ((active.map (·.id)).map fun id => (id, (posOf ps id).1, (posOf ps id).2)) []
    let loss := lossFactor s.params.collisionEnergyLossPct
    let stFinal := collideAll s.params loss cellSize grid2 (active.map (·.id)) (ps, sxy.1, sxy.2)
    let ps := enforceBounds s.Lx s.Ly (active.map (·.id)) stFinal.1
    (r, { s with particles := ps, energyParticles := es })

/-! ## Energy inflow, reactions, cleanup, step -/

/-- The inflow loop body: spawn one energy particle in the 20px strip at
the far left, with a fresh id. -/
def spawnInflowEnergy (Ly : ℝ) :
    ℕ → JsMap ℕ EnergyParticle → ℕ → Rand → JsMap ℕ EnergyParticle × ℕ × Rand
  | 0, es, nid, r => (es, nid, r)
  | n + 1, es, nid, r =>
    let (u1, r) := r.next
    let (u2, r) := r.next
    let es := jsSet es nid (EnergyParticle.mkNew nid (u1 * 20) (u2 * Ly))
    spawnInflowEnergy Ly n es (nid + 1) r

/-- Simulation.handleEnergyInflow: spawn energyInflowPerTick new energy
particles each step. -/
def Simulation.handleEnergyInflow (r : Rand) (s : SimState) : Rand × SimState :=
  let out := spawnInflowEnergy s.Ly energyInflowPerTick s.energyParticles s.nextId r
  (out.2.2, { s with energyParticles := out.1, nextId := out.2.1 })

/-- The pieces of Simulation state the reaction phase can write: both
particle stores, the reaction counter, the id counter, and the draw
cursor.  The catalog is read-only in the fixed-catalog revision. -/
structure ReactCtx where
  particles : JsMap ℕ SubstrateParticle
  energyParticles : JsMap ℕ EnergyParticle
  totalReactions : ℕ
  nextId : ℕ
  rand : Rand

/-- Simulation.executeReaction: consume the energy donor, count the
reaction, deactivate the non-catalyst reactant, create the two product
particles near the catalyst (two draws each: angle and radial offset),
then boost the visualization energies (catalyst saturating at 1, products
set to 1). -/
def Simulation.executeReaction (P : SimulationParams) (ctx : ReactCtx)
    (p1 p2 : SubstrateParticle) (energyId : ℕ) (reaction : Reaction) : ReactCtx :=
  let es := jsUpdate ctx.energyParticles energyId fun e => { e with active := false }
  let total := ctx.totalReactions + 1
  let catalyst := if p1.type = reaction.catalyst then p1 else p2
  let reactant := if p1.type = reaction.catalyst then p2 else p1
  let ps := jsUpdate ctx.particles reactant.id fun p => { p with active := false }
  let (u1, r) := ctx.rand.next
  let (u2, r) := r.next
  let angle1 := u1 * 2 * Real.pi
  let dist1 := P.particleRadius * 2 * (1.5 + u2 * 2.0)
  let id1 := ctx.nextId
  let ps := jsSet ps id1 (SubstrateParticle.mkNew id1
    (catalyst.x + Real.cos angle1 * dist1) (catalyst.y + Real.sin angle1 * dist1)
    reaction.product1 P.particleLifespan)
  let (u3, r) := r.next
  let (u4, r) := r.next
  let angle2 := u3 * 2 * Real.pi
  let dist2 := P.particleRadius * 2 * (1.5 + u4 * 2.0)
  let id2 := ctx.nextId + 1
  let ps := jsSet ps id2 (SubstrateParticle.mkNew id2
    (catalyst.x + Real.cos angle2 * dist2) (catalyst.y + Real.sin angle2 * dist2)
    reaction.product2 P.particleLifespan)
  let ps := jsUpdate ps catalyst.id fun p => { p with energy := min 1 (p.energy + 0.5) }
  let ps := jsUpdate ps id1 fun p => { p with energy := 1.0 }
  let ps := jsUpdate ps id2 fun p => { p with energy := 1.0 }
  { particles := ps
    energyParticles := es
    totalReactions := total
    nextId := ctx.nextId + 2
    rand := r }

/-- Simulation.attemptReaction (fixed-catalog revision): look up the
canonical pair key; if no entry exists nothing happens; otherwise execute
with probability equal to the entry's efficiency. -/
def Simulation.attemptReaction (P : SimulationParams)
    (catalog : JsMap (ℕ × ℕ) Reaction) (ctx : ReactCtx)
    (p1 p2 : SubstrateParticle) (energyId : ℕ) : ReactCtx :=
  match jsGet catalog (getReactionKey p1.type p2.type) with
  | none => ctx
  | some reaction =>
    let (u, r) := ctx.rand.next
    let ctx' := { ctx with rand := r }
    if u < reaction.efficiency then Simulation.executeReaction P ctx' p1 p2 energyId reaction
    else ctx'

/-- Whether the stored energy particle under an id is currently active. -/
def isEnergyActive (es : JsMap ℕ EnergyParticle) (id : ℕ) : Bool :=
  match jsGet es id with
  | some e => e.active
  | none => false

/-- The inner donor search of processReactionsAndDiscovery: iterate the
snapshot of active energy particles, skip ones deactivated meanwhile,
and let the first one within the reaction radius power the reaction
(breaking out of the loop). -/
def findDonorAndReact (P : SimulationParams) (catalog : JsMap (ℕ × ℕ) Reaction)
    (reactionRadius : ℝ) (p1 p2 : SubstrateParticle) :
    List EnergyParticle → ReactCtx → ReactCtx
  | [], ctx => ctx
  | e :: rest, ctx =>
    if isEnergyActive ctx.energyParticles e.id then
      if hypot (p1.x - e.x) (p1.y - e.y) < reactionRadius then
        Simulation.attemptReaction P catalog ctx p1 p2 e.id
      else findDonorAndReact P catalog reactionRadius p1 p2 rest ctx
    else findDonorAndReact P catalog reactionRadius p1 p2 rest ctx

/-- The inner pair loop (j > i): pairs within the reaction radius search
for a donor. -/
def reactInner (P : SimulationParams) (catalog : JsMap (ℕ × ℕ) Reaction)
    (reactionRadius : ℝ) (activeEnergy : List EnergyParticle) (p1 : SubstrateParticle) :
    List SubstrateParticle → ReactCtx → ReactCtx
  | [], ctx => ctx
  | p2 :: rest, ctx =>
    let ctx' :=
      if hypot (p1.x - p2.x) (p1.y - p2.y) < reactionRadius then
        findDonorAndReact P catalog reactionRadius p1 p2 activeEnergy ctx
      else ctx
    reactInner P catalog reactionRadius activeEnergy p1 rest ctx'

/-- The outer pair loop (index i over the active snapshot). -/
def reactOuter (P : SimulationParams) (catalog : JsMap (ℕ × ℕ) Reaction)
    (reactionRadius : ℝ) (activeEnergy : List EnergyParticle) :
    List SubstrateParticle → ReactCtx → ReactCtx
  | [], ctx => ctx
  | p1 :: rest, ctx =>
    reactOuter P catalog reactionRadius activeEnergy rest
      (reactInner P catalog reactionRadius activeEnergy p1 rest ctx)

/-- Simulation.processReactionsAndDiscovery: snapshot the active
substrate and energy particles, then scan unordered substrate pairs. -/
def Simulation.processReactionsAndDiscovery (r : Rand) (s : SimState) : Rand × SimState :=
  let activeParticles := (s.particles.map (·.2)).filter fun p => p.active
  let activeEnergy := (s.energyParticles.map (·.2)).filter fun p => p.active
  if activeParticles.length < 2 then (r, s)
  else
    let reactionRadius := s.params.particleRadius * s.params.reactionDistanceInR
    let ctx := reactOuter s.params s.reactionCatalog reactionRadius activeEnergy
      activeParticles ⟨s.particles, s.energyParticles, s.totalReactions, s.nextId, r⟩
    (ctx.rand, { s with
      particles := ctx.particles
      energyParticles := ctx.energyParticles
      totalReactions := ctx.totalReactions
      nextId := ctx.nextId })

/-- Simulation.cleanupInactiveParticles: drop inactive entries from both
stores; surviving substrate particles decay their visualization energy by
0.05, floored at 0. -/
def Simulation.cleanupInactiveParticles (s : SimState) : SimState :=
  { s with
    particles := (s.particles.filter fun kv => kv.2.active).map
      fun kv => (kv.1, { kv.2 with energy := max 0 (kv.2.energy - 0.05) })
    energyParticles := s.energyParticles.filter fun kv => kv.2.active }

/-- Simulation.step(): the frame counter is incremented first in the
source, then the four phases run in order. -/
def Simulation.step (r : Rand) (s : SimState) : Rand × SimState :=
  let s1 := { s with frameCount := s.frameCount + 1 }
  let m := Simulation.updateAndMoveParticles r s1
  let i := Simulation.handleEnergyInflow m.1 m.2
  let p := Simulation.processReactionsAndDiscovery i.1 i.2
  (p.1, Simulation.cleanupInactiveParticles p.2)

/-- The statistics record of exportState. -/
structure SimStats where
  frameCount : ℕ
  particleCountA : ℕ
  particleCountB : ℕ
  particleCountC : ℕ
  particleCountD : ℕ
  particleCountBinder : ℕ
  energyParticleCount : ℕ
  totalReactions : ℕ
  discoveredReactions : ℕ

/-- The buffers handed to the renderer: a flat coordinate buffer and the
parallel type and energy buffers, plus statistics. -/
structure ExportedState where
  positions : List ℝ
  types : List PType
  energies : List ℝ
  stats : SimStats

/-- Simulation.exportState(): the three parallel buffers are written at a
shared running index, first one row per active substrate particle, then
one row per active energy particle (type tag Energy, intensity 1.0); a
row contributes a coordinate pair to positions and one entry to each of
types and energies. -/
def Simulation.exportState (s : SimState) : ExportedState :=
  let activeParticles := (s.particles.map (·.2)).filter fun p => p.active
  let activeEnergy := (s.energyParticles.map (·.2)).filter fun p => p.active
  let rows : List (ℝ × ℝ × PType × ℝ) :=
    (activeParticles.map fun p => (p.x, p.y, p.type, p.energy)) ++
      (activeEnergy.map fun e => (e.x, e.y, PType.Energy, 1.0))
  { positions := rows.foldr (fun row acc => row.1 :: row.2.1 :: acc) []
    types := rows.map fun row => row.2.2.1
    energies := rows.map fun row => row.2.2.2
    stats := {
      frameCount := s.frameCount
      particleCountA := (activeParticles.filter fun p => p.type = PType.A).length
      particleCountB := (activeParticles.filter fun p => p.type = PType.B).length
      particleCountC := (activeParticles.filter fun p => p.type = PType.C).length
      particleCountD := (activeParticles.filter fun p => p.type = PType.D).length
      particleCountBinder := (activeParticles.filter fun p => p.type = PType.Binder).length
      energyParticleCount := activeEnergy.length
      totalReactions := s.totalReactions
      discoveredReactions := s.reactionCatalog.length } }

/-- Partial<SimulationParams>: every field optional. -/
structure PartialParams where
  Lx : Option ℝ := none
  Ly : Option ℝ := none
  particleCountA : Option ℕ := none
  particleCountB : Option ℕ := none
  particleCountC : Option ℕ := none
  particleCountD : Option ℕ := none
  particleCountE : Option ℕ := none
  particleCountBinder : Option ℕ := none
  energyParticleCount : Option ℕ := none
  particleRadius : Option ℝ := none
  randomStepMagnitudeX : Option ℝ := none
  collisionEnergyLossPct : Option ℝ := none
  binderForceUnitDistanceInR : Option ℝ := none
  reactionDistanceInR : Option ℝ := none
  binderQuorumRadiusInR : Option ℝ := none
  binderQuorumSoftCap : Option ℝ := none
  energyPulsePeriodFrames : Option ℕ := none
  current : Option ℝ := none
  attractorForceUnitDistanceInR : Option ℝ := none
  particleLifespan : Option ℤ := none

/-- The object spread { ...params, ...newParams }: a supplied field
overrides, an absent one keeps the prior value. -/
def mergeParams (p : SimulationParams) (n : PartialParams) : SimulationParams :=
  { Lx := n.Lx.getD p.Lx
    Ly := n.Ly.getD p.Ly
    particleCountA := n.particleCountA.getD p.particleCountA
    particleCountB := n.particleCountB.getD p.particleCountB
    particleCountC := n.particleCountC.getD p.particleCountC
    particleCountD := n.particleCountD.getD p.particleCountD
    particleCountE := n.particleCountE.getD p.particleCountE
    particleCountBinder := n.particleCountBinder.getD p.particleCountBinder
    energyParticleCount := n.energyParticleCount.getD p.energyParticleCount
    particleRadius := n.particleRadius.getD p.particleRadius
    randomStepMagnitudeX := n.randomStepMagnitudeX.getD p.randomStepMagnitudeX
    collisionEnergyLossPct := n.collisionEnergyLossPct.getD p.collisionEnergyLossPct
    binderForceUnitDistanceInR := n.binderForceUnitDistanceInR.getD p.binderForceUnitDistanceInR
    reactionDistanceInR := n.reactionDistanceInR.getD p.reactionDistanceInR
    binderQuorumRadiusInR := n.binderQuorumRadiusInR.getD p.binderQuorumRadiusInR
    binderQuorumSoftCap := n.binderQuorumSoftCap.getD p.binderQuorumSoftCap
    energyPulsePeriodFrames := n.energyPulsePeriodFrames.getD p.energyPulsePeriodFrames
    current := n.current.getD p.current
    attractorForceUnitDistanceInR := n.attractorForceUnitDistanceInR.getD p.attractorForceUnitDistanceInR
    particleLifespan := n.particleLifespan.getD p.particleLifespan }

/-- Simulation.updateParams: merge the partial config over the stored
params unconditionally; the cached Lx/Ly mirrors update only when the
supplied value is truthy (present and nonzero). -/
def Simulation.updateParams (n : PartialParams) (s : SimState) : SimState :=
  let merged := mergeParams s.params n
  let newLx := match n.Lx with
    | some v => if v ≠ 0 then v else s.Lx
    | none => s.Lx
  let newLy := match n.Ly with
    | some v => if v ≠ 0 then v else s.Ly
    | none => s.Ly
  { s with params := merged, Lx := newLx, Ly := newLy }

/-- Simulation.reset(): just initialize() again. -/
def Simulation.reset (r : Rand) (s : SimState) : Rand × SimState :=
  Simulation.initState r s

/-- Transcription of the spec's per-tick ordering with the frame-counter
increment as the final action after cleanup; C4 compares the source's
step() against it. -/
def stepCounterLast (r : Rand) (s : SimState) : Rand × SimState :=
  let m := Simulation.updateAndMoveParticles r s
  let i := Simulation.handleEnergyInflow m.1 m.2
  let p := Simulation.processReactionsAndDiscovery i.1 i.2
  let c := Simulation.cleanupInactiveParticles p.2
  (p.1, { c with frameCount := c.frameCount + 1 })

/-! ## C6: updateParams -/

/-- A concrete parameter record used by counterexamples and witnesses. -/
def sampleParams : SimulationParams :=
  { Lx := 800
    Ly := 600
    particleCountA := 1
    particleCountB := 1
    particleCountC := 1
    particleCountD := 1
    particleCountE := 1
    particleCountBinder := 1
    energyParticleCount := 1
    particleRadius := 5
    randomStepMagnitudeX := 2
    collisionEnergyLossPct := 20
    binderForceUnitDistanceInR := 8
    reactionDistanceInR := 3
    binderQuorumRadiusInR := 6
    binderQuorumSoftCap := 4
    energyPulsePeriodFrames := 60
    current := 0
    attractorForceUnitDistanceInR := 10
    particleLifespan := 600 }

/-- A concrete engine state with empty stores. -/
def sampleState : SimState :=
  { params := sampleParams
    Lx := 800
    Ly := 600
    particles := []
    energyParticles := []
    reactionCatalog := []
    frameCount := 0
    nextId := 0
    totalReactions := 0 }

section JsMapLemmas

variable {κ α : Type} [DecidableEq κ]

/-! ## JsMap lemmas -/



/-- Number of entries whose stored value satisfies a predicate. -/
def jsCount (p : α → Bool) (m : JsMap κ α) : ℕ := (m.filter fun kv => p kv.2).length

end JsMapLemmas

/-- Concrete particle A for the C2 witness scenario. -/
def c2pA : SubstrateParticle := ⟨0, 0, 0, true, 0, PType.A, 600⟩

/-- Concrete particle B for the C2 witness scenario. -/
def c2pB : SubstrateParticle := ⟨1, 1, 0, true, 0, PType.B, 600⟩

/-- Concrete energy donor for the C2 witness scenario. -/
def c2eE : EnergyParticle := ⟨10, 0, 0, true⟩

/-- The seeded A+B reaction used in the C2 witness. -/
def c2rxn : Reaction := ⟨PType.A, PType.B, PType.A, PType.A, PType.A, 0.5⟩

/-- A concrete reaction-phase context: particles A and B, one donor,
fresh id counter 2, all-zero draw stream. -/
def c2ctx : ReactCtx :=
  { particles := [(0, c2pA), (1, c2pB)]
    energyParticles := [(10, c2eE)]
    totalReactions := 0
    nextId := 2
    rand := ⟨fun _ => 0, 0⟩ }

/-- The particle B after it has already been consumed (deactivated) by an
earlier reaction of the same pass: the stored entry is inactive, but the
pair loop holds the stale snapshot and can select it again. -/
def c2pBdead : SubstrateParticle := ⟨1, 1, 0, false, 0, PType.B, 600⟩

/-- A reaction-phase context mid-pass: the non-catalyst reactant's stored
entry is already inactive (consumed earlier in the pass), a second donor
is still live. -/
def c2ctxStale : ReactCtx :=
  { particles := [(0, c2pA), (1, c2pBdead)]
    energyParticles := [(10, c2eE)]
    totalReactions := 0
    nextId := 2
    rand := ⟨fun _ => 0, 0⟩ }

/-! ## C10: the visualization-energy invariant -/

/-- All stored substrate particles carry a visualization energy in [0, 1]. -/
def EInv (m : JsMap ℕ SubstrateParticle) : Prop :=
  ∀ kv ∈ m, 0 ≤ kv.2.energy ∧ kv.2.energy ≤ 1

/-- The Simulation constructor: params stored, world size mirrored, empty
stores, zero counters. -/
def SimState.new (P : SimulationParams) : SimState :=
  { params := P
    Lx := P.Lx
    Ly := P.Ly
    particles := []
    energyParticles := []
    reactionCatalog := []
    frameCount := 0
    nextId := 0
    totalReactions := 0 }

/-- The states an engine instance can reach: construction, initialization
or reset, ticks, and parameter updates (exportState reads only). -/
inductive ReachableSim : SimState → Prop
  | construct (P : SimulationParams) : ReachableSim (SimState.new P)
  | init (r : Rand) (s : SimState) : ReachableSim s → ReachableSim (Simulation.initState r s).2
  | tick (r : Rand) (s : SimState) : ReachableSim s → ReachableSim (Simulation.step r s).2
  | update (n : PartialParams) (s : SimState) :
      ReachableSim s → ReachableSim (Simulation.updateParams n s)

namespace Worker

/-! ## The structure-of-arrays worker (src/simulation/worker.ts) -/


/-- ParticleType.Monomer of the worker's types module. -/
def Monomer : ℕ := 0

/-- ParticleType.Template of the worker's types module. -/
def Template : ℕ := 1

/-- The worker's SimulationParams. -/
structure WParams where
  Lx : ℝ
  Ly : ℝ
  particleCount : ℕ
  monomerDiameter : ℝ
  k : ℕ
  dt : ℝ
  diffusionCoefficient : ℝ
  flowVelocity : ℝ
  inflowRate : ℕ
  inflowInterval : ℕ
  inflowStripWidth : ℝ
  nucleationEnabled : Bool
  nucleationRadius : ℝ
  nucleationSteps : ℕ
  captureRadius : ℝ
  captureSteps : ℕ
  releaseProb : ℝ
  coopWindow : ℕ
  starvationSteps : ℕ
  decayProb : ℝ
  geomMutationStdDev : ℝ
  releaseProbMutationStdDev : ℝ
  siteCountMutationProb : ℝ
  newLinageThreshold : ℕ
  seedTemplates : ℕ

/-- The worker's module-level state: the running flag, frame counter,
lineage counter, the structure-of-arrays particle data, the
inactiveIndices free stack, and the (not yet used) uniform grid. -/
structure WState where
  params : WParams
  simulationRunning : Bool
  frameCount : ℕ
  nextLineageId : ℕ
  p_id : List ℕ
  p_type : List ℕ
  p_x : List ℝ
  p_y : List ℝ
  p_angle : List ℝ
  p_lineageId : List ℕ
  p_active : List Bool
  inactiveIndices : List ℕ
  grid : List (List ℕ)
  gridCellSize : ℝ
  gridWidth : ℕ
  gridHeight : ℕ

/-- The template-seeding loop of init(): pop an id from the pool (break
when empty), activate it as a Template with a fresh lineage id, three
draws for position and angle. -/
def seedLoop : ℕ → WState → Rand → Rand × WState
  | 0, s, r => (r, s)
  | n + 1, s, r =>
    match s.inactiveIndices.getLast? with
    | none => (r, s)
    | some pId =>
      let s := { s with inactiveIndices := s.inactiveIndices.dropLast }
      let (u1, r) := r.next
      let (u2, r) := r.next
      let (u3, r) := r.next
      let s := { s with
        p_active := s.p_active.set pId true
        p_type := s.p_type.set pId Template
        p_x := s.p_x.set pId (s.params.Lx * (0.25 + u1 * 0.25))
        p_y := s.p_y.set pId (u2 * s.params.Ly)
        p_angle := s.p_angle.set pId (u3 * 2 * Real.pi)
        p_lineageId := s.p_lineageId.set pId s.nextLineageId
        nextLineageId := s.nextLineageId + 1 }
      seedLoop n s r

/-- init(_params): allocate the arrays (typed arrays zero-filled, all
particles inactive), fill the free stack with
inactiveIndices[i] = particleCount - 1 - i, seed the templates, set up
the grid.  The module-level running flag, frame counter and lineage
counter are carried over from the current state, as in the source. -/
def init (P : WParams) (r : Rand) (s : WState) : Rand × WState :=
  let pc := P.particleCount
  let base : WState := { s with
    params := P
    p_id := List.range pc
    p_type := List.replicate pc 0
    p_x := List.replicate pc (0 : ℝ)
    p_y := List.replicate pc (0 : ℝ)
    p_angle := List.replicate pc (0 : ℝ)
    p_lineageId := List.replicate pc 0
    p_active := List.replicate pc false
    inactiveIndices := (List.range pc).map fun i => pc - 1 - i
    gridCellSize := P.monomerDiameter * 2
    gridWidth := ⌈P.Lx / (P.monomerDiameter * 2)⌉₊
    gridHeight := ⌈P.Ly / (P.monomerDiameter * 2)⌉₊
    grid := List.replicate (⌈P.Lx / (P.monomerDiameter * 2)⌉₊ *
      ⌈P.Ly / (P.monomerDiameter * 2)⌉₊) [] }
  seedLoop P.seedTemplates base r

/-- The per-particle motion body of tick(): brownian step (plus rightward
flow for monomers), periodic wrap in y, open boundary in x with
deactivation and return of the id to the pool.  (The activeIds scratch
array of the source is only rebuilt later for rendering and is not
modelled.) -/
def motionLoop (diffusionStep : ℝ) : List ℕ → WState → Rand → Rand × WState
  | [], s, r => (r, s)
  | i :: rest, s, r =>
    if s.p_active.getD i false = true then
      let (u1, r) := r.next
      let (u2, r) := r.next
      let brownianX := diffusionStep * (u1 - 0.5) * 2
      let brownianY := diffusionStep * (u2 - 0.5) * 2
      let x :=
        if s.p_type.getD i 0 = Monomer then
          s.p_x.getD i 0 + brownianX + s.params.flowVelocity * s.params.dt
        else s.p_x.getD i 0 + brownianX
      let y := s.p_y.getD i 0 + brownianY
      let y := if y < 0 then y + s.params.Ly else y
      let y := if y > s.params.Ly then y - s.params.Ly else y
      let s := { s with p_x := s.p_x.set i x, p_y := s.p_y.set i y }
      if x > s.params.Lx ∨ x < 0 then
        motionLoop diffusionStep rest
          { s with
            p_active := s.p_active.set i false
            inactiveIndices := s.inactiveIndices ++ [i] } r
      else motionLoop diffusionStep rest s r
    else motionLoop diffusionStep rest s r

/-- The monomer-inflow loop of tick(): pop an id from the pool (break
when the pool is exhausted — a dropped birth), activate it as a Monomer
in the inflow strip. -/
def spawnLoop : ℕ → WState → Rand → Rand × WState
  | 0, s, r => (r, s)
  | n + 1, s, r =>
    match s.inactiveIndices.getLast? with
    | none => (r, s)
    | some pId =>
      let s := { s with inactiveIndices := s.inactiveIndices.dropLast }
      let (u1, r) := r.next
      let (u2, r) := r.next
      let s := { s with
        p_active := s.p_active.set pId true
        p_type := s.p_type.set pId Monomer
        p_x := s.p_x.set pId (u1 * s.params.inflowStripWidth)
        p_y := s.p_y.set pId (u2 * s.params.Ly)
        p_angle := s.p_angle.set pId 0
        p_lineageId := s.p_lineageId.set pId 0 }
      spawnLoop n s r

/-- tick(): no-op unless simulationRunning; otherwise increment the frame
counter, run the motion loop over all slots, and on the inflow cadence
spawn monomers from the pool.  (The trailing stateUpdate post builds
fresh local buffers and mutates no worker state; it is omitted.) -/
def tick (r : Rand) (s : WState) : Rand × WState :=
  if s.simulationRunning = false then (r, s)
  else
    let s1 : WState := { s with frameCount := s.frameCount + 1 }
    let m := motionLoop (Real.sqrt (2 * s1.params.diffusionCoefficient * s1.params.dt))
      (List.range s1.params.particleCount) s1 r
    let s2 := m.2
    if s2.frameCount % s2.params.inflowInterval = 0 then
      spawnLoop s2.params.inflowRate s2 m.1
    else m

/-- The free-pool well-formedness invariant: the stack holds no
duplicates and every id it holds is inactive. -/
def poolWF (s : WState) : Prop :=
  s.inactiveIndices.Nodup ∧ ∀ i ∈ s.inactiveIndices, s.p_active.getD i false = false

/-- Whether slot i currently holds an active particle. -/
def isActive (s : WState) (i : ℕ) : Bool := s.p_active.getD i false

end Worker

/-- Concrete worker parameters for witnesses. -/
def wparams0 : Worker.WParams :=
  { Lx := 100
    Ly := 100
    particleCount := 2
    monomerDiameter := 1
    k := 3
    dt := 1
    diffusionCoefficient := 1
    flowVelocity := 1
    inflowRate := 1
    inflowInterval := 1
    inflowStripWidth := 10
    nucleationEnabled := false
    nucleationRadius := 1
    nucleationSteps := 1
    captureRadius := 1
    captureSteps := 1
    releaseProb := 0
    coopWindow := 1
    starvationSteps := 1
    decayProb := 0
    geomMutationStdDev := 0
    releaseProbMutationStdDev := 0
    siteCountMutationProb := 0
    newLinageThreshold := 1
    seedTemplates := 1 }

/-- A concrete stopped worker state: slot 0 active, slot 1 pooled. -/
def wstop : Worker.WState :=
  { params := wparams0
    simulationRunning := false
    frameCount := 0
    nextLineageId := 1
    p_id := [0, 1]
    p_type := [0, 0]
    p_x := [1, 0]
    p_y := [1, 0]
    p_angle := [0, 0]
    p_lineageId := [0, 0]
    p_active := [true, false]
    inactiveIndices := [1]
    grid := []
    gridCellSize := 2
    gridWidth := 50
    gridHeight := 50 }

/-- The same worker state with the running flag set. -/
def wrun : Worker.WState := { wstop with simulationRunning := true }

/-- The stored visualization energy at key k (0 when the key is absent). -/
def energyAt (s : SimState) (k : ℕ) : ℝ :=
  ((jsGet s.particles k).map fun p => p.energy).getD 0

/-- A concrete initialized engine state (all-zero draw stream over
sampleParams). -/
def c10s : SimState :=
  (Simulation.initState ⟨fun _ => 0, 0⟩ (SimState.new sampleParams)).2

/-! ### Theorems -/

theorem hypot_nonneg (a b : ℝ) : 0 ≤ hypot a b := Real.sqrt_nonneg _

theorem hypot_sq (a b : ℝ) : hypot a b ^ 2 = a ^ 2 + b ^ 2 := by
  unfold hypot
  rw [Real.sq_sqrt]
  positivity

/-- hypot of a vector lying on the first axis, with nonnegative coordinate. -/
theorem hypot_axis {a : ℝ} (ha : 0 ≤ a) : hypot a 0 = a := by
  unfold hypot
  rw [show a ^ 2 + (0:ℝ) ^ 2 = a ^ 2 by ring, Real.sqrt_sq ha]

/-- hypot of a scalar multiple of a unit vector. -/
theorem hypot_smul_unit {nx ny c : ℝ} (hunit : nx ^ 2 + ny ^ 2 = 1) (hc : 0 ≤ c) :
    hypot (nx * c) (ny * c) = c := by
  unfold hypot
  rw [show (nx * c) ^ 2 + (ny * c) ^ 2 = (nx ^ 2 + ny ^ 2) * c ^ 2 by ring, hunit, one_mul,
    Real.sqrt_sq hc]

theorem lossFactor_zero : lossFactor 0 = 1 := by
  unfold lossFactor
  norm_num

section CollisionFacts

variable {r px py qx qy v1x v1y v2x v2y : ℝ}

/-- In the non-degenerate regime the distance is positive and the
contact normal is a unit vector. -/
theorem collision_normal_unit (hlow : (1e-6 : ℝ) < hypot (qx - px) (qy - py)) :
    0 < hypot (qx - px) (qy - py) ∧
      ((qx - px) / hypot (qx - px) (qy - py)) ^ 2 +
        ((qy - py) / hypot (qx - px) (qy - py)) ^ 2 = 1 := by
  have hpos : 0 < hypot (qx - px) (qy - py) := lt_trans (by norm_num) hlow
  refine ⟨hpos, ?_⟩
  have hsq := hypot_sq (qx - px) (qy - py)
  field_simp
  linarith [hsq]

end CollisionFacts

section CollisionBranches

variable (r loss : ℝ) (pT qT : PType) (px py qx qy v1x v1y v2x v2y : ℝ)

/-- Degenerate or non-overlapping pairs are skipped: positions and steps
are returned unchanged. -/
theorem resolveCollision_skip
    (h : hypot (qx - px) (qy - py) ≥ 2 * r ∨ hypot (qx - px) (qy - py) ≤ 1e-6) :
    resolveCollision r loss pT qT px py qx qy v1x v1y v2x v2y =
      ⟨px, py, qx, qy, v1x, v1y, v2x, v2y⟩ := by
  simp only [resolveCollision]
  rw [if_pos h]

/-- The binder/non-binder branch with p the binder. -/
theorem resolveCollision_binderP (hq : qT ≠ PType.Binder)
    (hlow : (1e-6 : ℝ) < hypot (qx - px) (qy - py))
    (hhigh : hypot (qx - px) (qy - py) < 2 * r) :
    resolveCollision r loss PType.Binder qT px py qx qy v1x v1y v2x v2y =
      ⟨px, py,
       px + (qx - px) / hypot (qx - px) (qy - py) * (2 * r),
       py + (qy - py) / hypot (qx - px) (qy - py) * (2 * r),
       v1x, v1y, 0, 0⟩ := by
  have hguard : ¬(hypot (qx - px) (qy - py) ≥ 2 * r ∨
      hypot (qx - px) (qy - py) ≤ 1e-6) := by
    push_neg
    exact ⟨hhigh, hlow⟩
  simp only [resolveCollision]
  rw [if_neg hguard]
  simp [hq]

/-- The elastic branch for two non-binders, with the lets of the source
substituted. -/
theorem resolveCollision_elastic (hp : pT ≠ PType.Binder) (hq : qT ≠ PType.Binder)
    (hlow : (1e-6 : ℝ) < hypot (qx - px) (qy - py))
    (hhigh : hypot (qx - px) (qy - py) < 2 * r) :
    resolveCollision r loss pT qT px py qx qy v1x v1y v2x v2y =
      (let d := hypot (qx - px) (qy - py)
       let nx := (qx - px) / d
       let ny := (qy - py) / d
       let v1n := v1x * nx + v1y * ny
       let v2n := v2x * nx + v2y * ny
       let v1t := v1x * (-ny) + v1y * nx
       let v2t := v2x * (-ny) + v2y * nx
       let corr := (2 * r - d) * 0.5
       ⟨px - nx * corr, py - ny * corr, qx + nx * corr, qy + ny * corr,
        v1t * (-ny) + v2n * loss * nx, v1t * nx + v2n * loss * ny,
        v2t * (-ny) + v1n * loss * nx, v2t * nx + v1n * loss * ny⟩) := by
  have hguard : ¬(hypot (qx - px) (qy - py) ≥ 2 * r ∨
      hypot (qx - px) (qy - py) ≤ 1e-6) := by
    push_neg
    exact ⟨hhigh, hlow⟩
  have hbind : ¬(pT = PType.Binder ∨ qT = PType.Binder) := by tauto
  simp only [resolveCollision]
  rw [if_neg hguard, if_neg hbind]

end CollisionBranches

/-- C9 (as amended): for a stationary Binder p and a non-binder particle q
whose post-step positions are separated by more than the degeneracy
threshold 1e-6 and by less than 2r, one collision-resolution pass leaves
the binder where it is, places the non-binder at distance exactly 2r from
the binder, and zeroes the non-binder's pending step vector (the binder's
own pending step is untouched). -/
theorem C9_binder_capture (r loss : ℝ) (qT : PType) (hq : qT ≠ PType.Binder)
    (px py qx qy v1x v1y v2x v2y : ℝ)
    (hlow : (1e-6 : ℝ) < hypot (qx - px) (qy - py))
    (hhigh : hypot (qx - px) (qy - py) < 2 * r) :
    (resolveCollision r loss PType.Binder qT px py qx qy v1x v1y v2x v2y).px = px ∧
    (resolveCollision r loss PType.Binder qT px py qx qy v1x v1y v2x v2y).py = py ∧
    hypot ((resolveCollision r loss PType.Binder qT px py qx qy v1x v1y v2x v2y).qx - px)
      ((resolveCollision r loss PType.Binder qT px py qx qy v1x v1y v2x v2y).qy - py) = 2 * r ∧
    (resolveCollision r loss PType.Binder qT px py qx qy v1x v1y v2x v2y).v2x = 0 ∧
    (resolveCollision r loss PType.Binder qT px py qx qy v1x v1y v2x v2y).v2y = 0 ∧
    (resolveCollision r loss PType.Binder qT px py qx qy v1x v1y v2x v2y).v1x = v1x ∧
    (resolveCollision r loss PType.Binder qT px py qx qy v1x v1y v2x v2y).v1y = v1y := by
  have hd := collision_normal_unit hlow
  have h2r : (0 : ℝ) ≤ 2 * r := le_of_lt (lt_trans hd.1 hhigh)
  rw [resolveCollision_binderP r loss qT px py qx qy v1x v1y v2x v2y hq hlow hhigh]
  refine ⟨rfl, rfl, ?_, rfl, rfl, rfl, rfl⟩
  have e1 : px + (qx - px) / hypot (qx - px) (qy - py) * (2 * r) - px
      = (qx - px) / hypot (qx - px) (qy - py) * (2 * r) := by ring
  have e2 : py + (qy - py) / hypot (qx - px) (qy - py) * (2 * r) - py
      = (qy - py) / hypot (qx - px) (qy - py) * (2 * r) := by ring
  rw [e1, e2, hypot_smul_unit hd.2 h2r]

/-- C9 witness: concrete instance of the binder-capture theorem, binder at
the origin, substrate at (1, 0), radius 1. -/
theorem C9_binder_capture_witness :
    (resolveCollision 1 (lossFactor 0) PType.Binder PType.A 0 0 1 0 2 3 4 5).px = 0 ∧
    (resolveCollision 1 (lossFactor 0) PType.Binder PType.A 0 0 1 0 2 3 4 5).py = 0 ∧
    hypot ((resolveCollision 1 (lossFactor 0) PType.Binder PType.A 0 0 1 0 2 3 4 5).qx - 0)
      ((resolveCollision 1 (lossFactor 0) PType.Binder PType.A 0 0 1 0 2 3 4 5).qy - 0) = 2 * 1 ∧
    (resolveCollision 1 (lossFactor 0) PType.Binder PType.A 0 0 1 0 2 3 4 5).v2x = 0 ∧
    (resolveCollision 1 (lossFactor 0) PType.Binder PType.A 0 0 1 0 2 3 4 5).v2y = 0 ∧
    (resolveCollision 1 (lossFactor 0) PType.Binder PType.A 0 0 1 0 2 3 4 5).v1x = 2 ∧
    (resolveCollision 1 (lossFactor 0) PType.Binder PType.A 0 0 1 0 2 3 4 5).v1y = 3 := by
  have e : hypot ((1 : ℝ) - 0) ((0 : ℝ) - 0) = 1 := by
    rw [show ((1 : ℝ) - 0) = 1 by ring, show ((0 : ℝ) - 0) = 0 by ring]
    exact hypot_axis (by norm_num)
  exact C9_binder_capture 1 (lossFactor 0) PType.A (by decide) 0 0 1 0 2 3 4 5
    (by rw [e]; norm_num) (by rw [e]; norm_num)

/-- C9 counterexample: a substrate particle at the nonzero separation 1e-6
from a stationary binder (well within 2r for r = 1) is skipped by the
degeneracy guard `dist <= 1e-6`: after the pass it is still at distance
1e-6 from the binder, not 2r, and its pending step has not been zeroed. -/
theorem C9_degenerate_counterexample :
    hypot ((resolveCollision 1 (lossFactor 0) PType.Binder PType.A 0 0 1e-6 0 0 0 1 1).qx - 0)
        ((resolveCollision 1 (lossFactor 0) PType.Binder PType.A 0 0 1e-6 0 0 0 1 1).qy - 0)
      ≠ 2 * 1 ∧
    (resolveCollision 1 (lossFactor 0) PType.Binder PType.A 0 0 1e-6 0 0 0 1 1).v2x ≠ 0 := by
  have e : hypot ((1e-6 : ℝ) - 0) ((0 : ℝ) - 0) = 1e-6 := by
    rw [show ((1e-6 : ℝ) - 0) = 1e-6 by ring, show ((0 : ℝ) - 0) = 0 by ring]
    exact hypot_axis (by norm_num)
  have hskip := resolveCollision_skip 1 (lossFactor 0) PType.Binder PType.A
    0 0 1e-6 0 0 0 1 1 (Or.inr (le_of_eq e))
  simp only [hskip]
  refine ⟨?_, by norm_num⟩
  rw [e]
  norm_num

/-- C8 (as amended): two overlapping non-binder particles with zero
collision energy loss and post-step separation strictly between the
degeneracy threshold 1e-6 and 2r: one resolution pass moves each particle
by half the overlap along the contact normal, making the final separation
exactly 2r, and swaps the normal components of the two pending step
vectors while leaving the tangential components unchanged. -/
theorem C8_elastic_exchange (r : ℝ) (pT qT : PType)
    (hp : pT ≠ PType.Binder) (hq : qT ≠ PType.Binder)
    (px py qx qy v1x v1y v2x v2y : ℝ)
    (hlow : (1e-6 : ℝ) < hypot (qx - px) (qy - py))
    (hhigh : hypot (qx - px) (qy - py) < 2 * r) :
    hypot ((resolveCollision r (lossFactor 0) pT qT px py qx qy v1x v1y v2x v2y).qx -
        (resolveCollision r (lossFactor 0) pT qT px py qx qy v1x v1y v2x v2y).px)
      ((resolveCollision r (lossFactor 0) pT qT px py qx qy v1x v1y v2x v2y).qy -
        (resolveCollision r (lossFactor 0) pT qT px py qx qy v1x v1y v2x v2y).py) = 2 * r ∧
    hypot (px - (resolveCollision r (lossFactor 0) pT qT px py qx qy v1x v1y v2x v2y).px)
      (py - (resolveCollision r (lossFactor 0) pT qT px py qx qy v1x v1y v2x v2y).py)
      = (2 * r - hypot (qx - px) (qy - py)) * 0.5 ∧
    hypot ((resolveCollision r (lossFactor 0) pT qT px py qx qy v1x v1y v2x v2y).qx - qx)
      ((resolveCollision r (lossFactor 0) pT qT px py qx qy v1x v1y v2x v2y).qy - qy)
      = (2 * r - hypot (qx - px) (qy - py)) * 0.5 ∧
    (resolveCollision r (lossFactor 0) pT qT px py qx qy v1x v1y v2x v2y).v1x *
        ((qx - px) / hypot (qx - px) (qy - py)) +
      (resolveCollision r (lossFactor 0) pT qT px py qx qy v1x v1y v2x v2y).v1y *
        ((qy - py) / hypot (qx - px) (qy - py))
      = v2x * ((qx - px) / hypot (qx - px) (qy - py)) +
        v2y * ((qy - py) / hypot (qx - px) (qy - py)) ∧
    (resolveCollision r (lossFactor 0) pT qT px py qx qy v1x v1y v2x v2y).v2x *
        ((qx - px) / hypot (qx - px) (qy - py)) +
      (resolveCollision r (lossFactor 0) pT qT px py qx qy v1x v1y v2x v2y).v2y *
        ((qy - py) / hypot (qx - px) (qy - py))
      = v1x * ((qx - px) / hypot (qx - px) (qy - py)) +
        v1y * ((qy - py) / hypot (qx - px) (qy - py)) ∧
    (resolveCollision r (lossFactor 0) pT qT px py qx qy v1x v1y v2x v2y).v1x *
        (-((qy - py) / hypot (qx - px) (qy - py))) +
      (resolveCollision r (lossFactor 0) pT qT px py qx qy v1x v1y v2x v2y).v1y *
        ((qx - px) / hypot (qx - px) (qy - py))
      = v1x * (-((qy - py) / hypot (qx - px) (qy - py))) +
        v1y * ((qx - px) / hypot (qx - px) (qy - py)) ∧
    (resolveCollision r (lossFactor 0) pT qT px py qx qy v1x v1y v2x v2y).v2x *
        (-((qy - py) / hypot (qx - px) (qy - py))) +
      (resolveCollision r (lossFactor 0) pT qT px py qx qy v1x v1y v2x v2y).v2y *
        ((qx - px) / hypot (qx - px) (qy - py))
      = v2x * (-((qy - py) / hypot (qx - px) (qy - py))) +
        v2y * ((qx - px) / hypot (qx - px) (qy - py)) := by
  obtain ⟨hd, hunit⟩ := collision_normal_unit hlow
  have hd0 : hypot (qx - px) (qy - py) ≠ 0 := ne_of_gt hd
  have h2r : (0 : ℝ) < 2 * r := lt_trans hd hhigh
  have hcorr : (0 : ℝ) ≤ (2 * r - hypot (qx - px) (qy - py)) * 0.5 := by linarith
  rw [lossFactor_zero,
    resolveCollision_elastic r 1 pT qT px py qx qy v1x v1y v2x v2y hp hq hlow hhigh]
  simp only []
  refine ⟨?_, ?_, ?_, ?_, ?_, ?_, ?_⟩
  · have e1 : qx + (qx - px) / hypot (qx - px) (qy - py) *
        ((2 * r - hypot (qx - px) (qy - py)) * 0.5) -
        (px - (qx - px) / hypot (qx - px) (qy - py) *
          ((2 * r - hypot (qx - px) (qy - py)) * 0.5))
        = (qx - px) / hypot (qx - px) (qy - py) * (2 * r) := by
      field_simp
      ring
    have e2 : qy + (qy - py) / hypot (qx - px) (qy - py) *
        ((2 * r - hypot (qx - px) (qy - py)) * 0.5) -
        (py - (qy - py) / hypot (qx - px) (qy - py) *
          ((2 * r - hypot (qx - px) (qy - py)) * 0.5))
        = (qy - py) / hypot (qx - px) (qy - py) * (2 * r) := by
      field_simp
      ring
    rw [e1, e2, hypot_smul_unit hunit (le_of_lt h2r)]
  · have e1 : px - (px - (qx - px) / hypot (qx - px) (qy - py) *
        ((2 * r - hypot (qx - px) (qy - py)) * 0.5))
        = (qx - px) / hypot (qx - px) (qy - py) *
          ((2 * r - hypot (qx - px) (qy - py)) * 0.5) := by ring
    have e2 : py - (py - (qy - py) / hypot (qx - px) (qy - py) *
        ((2 * r - hypot (qx - px) (qy - py)) * 0.5))
        = (qy - py) / hypot (qx - px) (qy - py) *
          ((2 * r - hypot (qx - px) (qy - py)) * 0.5) := by ring
    rw [e1, e2, hypot_smul_unit hunit hcorr]
  · have e1 : qx + (qx - px) / hypot (qx - px) (qy - py) *
        ((2 * r - hypot (qx - px) (qy - py)) * 0.5) - qx
        = (qx - px) / hypot (qx - px) (qy - py) *
          ((2 * r - hypot (qx - px) (qy - py)) * 0.5) := by ring
    have e2 : qy + (qy - py) / hypot (qx - px) (qy - py) *
        ((2 * r - hypot (qx - px) (qy - py)) * 0.5) - qy
        = (qy - py) / hypot (qx - px) (qy - py) *
          ((2 * r - hypot (qx - px) (qy - py)) * 0.5) := by ring
    rw [e1, e2, hypot_smul_unit hunit hcorr]
  · linear_combination (v2x * ((qx - px) / hypot (qx - px) (qy - py)) +
      v2y * ((qy - py) / hypot (qx - px) (qy - py))) * hunit
  · linear_combination (v1x * ((qx - px) / hypot (qx - px) (qy - py)) +
      v1y * ((qy - py) / hypot (qx - px) (qy - py))) * hunit
  · linear_combination (v1x * (-((qy - py) / hypot (qx - px) (qy - py))) +
      v1y * ((qx - px) / hypot (qx - px) (qy - py))) * hunit
  · linear_combination (v2x * (-((qy - py) / hypot (qx - px) (qy - py))) +
      v2y * ((qx - px) / hypot (qx - px) (qy - py))) * hunit

/-- C8 witness: concrete head-on pair, p at the origin and q at (1, 0)
with r = 1 (overlap 1), steps (2, 3) and (5, 7). -/
theorem C8_elastic_exchange_witness :
    hypot ((resolveCollision 1 (lossFactor 0) PType.A PType.B 0 0 1 0 2 3 5 7).qx -
        (resolveCollision 1 (lossFactor 0) PType.A PType.B 0 0 1 0 2 3 5 7).px)
      ((resolveCollision 1 (lossFactor 0) PType.A PType.B 0 0 1 0 2 3 5 7).qy -
        (resolveCollision 1 (lossFactor 0) PType.A PType.B 0 0 1 0 2 3 5 7).py) = 2 * 1 ∧
    hypot (0 - (resolveCollision 1 (lossFactor 0) PType.A PType.B 0 0 1 0 2 3 5 7).px)
      (0 - (resolveCollision 1 (lossFactor 0) PType.A PType.B 0 0 1 0 2 3 5 7).py)
      = (2 * 1 - hypot (1 - 0) (0 - 0)) * 0.5 ∧
    hypot ((resolveCollision 1 (lossFactor 0) PType.A PType.B 0 0 1 0 2 3 5 7).qx - 1)
      ((resolveCollision 1 (lossFactor 0) PType.A PType.B 0 0 1 0 2 3 5 7).qy - 0)
      = (2 * 1 - hypot (1 - 0) (0 - 0)) * 0.5 ∧
    (resolveCollision 1 (lossFactor 0) PType.A PType.B 0 0 1 0 2 3 5 7).v1x *
        ((1 - 0) / hypot (1 - 0) (0 - 0)) +
      (resolveCollision 1 (lossFactor 0) PType.A PType.B 0 0 1 0 2 3 5 7).v1y *
        ((0 - 0) / hypot (1 - 0) (0 - 0))
      = 5 * ((1 - 0) / hypot (1 - 0) (0 - 0)) + 7 * ((0 - 0) / hypot (1 - 0) (0 - 0)) ∧
    (resolveCollision 1 (lossFactor 0) PType.A PType.B 0 0 1 0 2 3 5 7).v2x *
        ((1 - 0) / hypot (1 - 0) (0 - 0)) +
      (resolveCollision 1 (lossFactor 0) PType.A PType.B 0 0 1 0 2 3 5 7).v2y *
        ((0 - 0) / hypot (1 - 0) (0 - 0))
      = 2 * ((1 - 0) / hypot (1 - 0) (0 - 0)) + 3 * ((0 - 0) / hypot (1 - 0) (0 - 0)) ∧
    (resolveCollision 1 (lossFactor 0) PType.A PType.B 0 0 1 0 2 3 5 7).v1x *
        (-((0 - 0) / hypot (1 - 0) (0 - 0))) +
      (resolveCollision 1 (lossFactor 0) PType.A PType.B 0 0 1 0 2 3 5 7).v1y *
        ((1 - 0) / hypot (1 - 0) (0 - 0))
      = 2 * (-((0 - 0) / hypot (1 - 0) (0 - 0))) + 3 * ((1 - 0) / hypot (1 - 0) (0 - 0)) ∧
    (resolveCollision 1 (lossFactor 0) PType.A PType.B 0 0 1 0 2 3 5 7).v2x *
        (-((0 - 0) / hypot (1 - 0) (0 - 0))) +
      (resolveCollision 1 (lossFactor 0) PType.A PType.B 0 0 1 0 2 3 5 7).v2y *
        ((1 - 0) / hypot (1 - 0) (0 - 0))
      = 5 * (-((0 - 0) / hypot (1 - 0) (0 - 0))) + 7 * ((1 - 0) / hypot (1 - 0) (0 - 0)) := by
  have e : hypot ((1 : ℝ) - 0) ((0 : ℝ) - 0) = 1 := by
    rw [show ((1 : ℝ) - 0) = 1 by ring, show ((0 : ℝ) - 0) = 0 by ring]
    exact hypot_axis (by norm_num)
  exact C8_elastic_exchange 1 PType.A PType.B (by decide) (by decide) 0 0 1 0 2 3 5 7
    (by rw [e]; norm_num) (by rw [e]; norm_num)

/-- C8 counterexample: two non-binder particles at the nonzero separation
1e-6 (strictly between 0 and 2r for r = 1, loss 0) are skipped by the
degeneracy guard `dist <= 1e-6`: the pass leaves both positions and both
pending steps unchanged, so the final separation is not 2r and the normal
step components are not exchanged. -/
theorem C8_degenerate_counterexample :
    hypot ((resolveCollision 1 (lossFactor 0) PType.A PType.B 0 0 1e-6 0 1 0 0 0).qx -
        (resolveCollision 1 (lossFactor 0) PType.A PType.B 0 0 1e-6 0 1 0 0 0).px)
      ((resolveCollision 1 (lossFactor 0) PType.A PType.B 0 0 1e-6 0 1 0 0 0).qy -
        (resolveCollision 1 (lossFactor 0) PType.A PType.B 0 0 1e-6 0 1 0 0 0).py) ≠ 2 * 1 ∧
    (resolveCollision 1 (lossFactor 0) PType.A PType.B 0 0 1e-6 0 1 0 0 0).v1x = 1 ∧
    (resolveCollision 1 (lossFactor 0) PType.A PType.B 0 0 1e-6 0 1 0 0 0).v2x = 0 := by
  have e : hypot ((1e-6 : ℝ) - 0) ((0 : ℝ) - 0) = 1e-6 := by
    rw [show ((1e-6 : ℝ) - 0) = 1e-6 by ring, show ((0 : ℝ) - 0) = 0 by ring]
    exact hypot_axis (by norm_num)
  have hskip := resolveCollision_skip 1 (lossFactor 0) PType.A PType.B
    0 0 1e-6 0 1 0 0 0 (Or.inr (le_of_eq e))
  simp only [hskip]
  refine ⟨?_, trivial, trivial⟩
  rw [e]
  norm_num

/-! ## C1: exportState buffer layout -/

theorem rowsFlat_length (l : List (ℝ × ℝ × PType × ℝ)) :
    (l.foldr (fun row acc => row.1 :: row.2.1 :: acc) []).length = 2 * l.length := by
  induction l with
  | nil => simp
  | cons h t ih => simp [ih]; omega

theorem rowsFlat_append (l1 l2 : List (ℝ × ℝ × PType × ℝ)) :
    (l1 ++ l2).foldr (fun row acc => row.1 :: row.2.1 :: acc) [] =
      l1.foldr (fun row acc => row.1 :: row.2.1 :: acc) [] ++
        l2.foldr (fun row acc => row.1 :: row.2.1 :: acc) [] := by
  induction l1 with
  | nil => simp
  | cons h t ih => simp [ih]

theorem rowsFlat_sub (l : List SubstrateParticle) :
    ((l.map fun p => ((p.x, p.y, p.type, p.energy) : ℝ × ℝ × PType × ℝ)).foldr
        (fun row acc => row.1 :: row.2.1 :: acc) []) =
      l.foldr (fun p acc => p.x :: p.y :: acc) [] := by
  induction l with
  | nil => rfl
  | cons h t ih => simp [ih]

theorem rowsFlat_energy (l : List EnergyParticle) :
    ((l.map fun e => ((e.x, e.y, PType.Energy, (1.0 : ℝ)) : ℝ × ℝ × PType × ℝ)).foldr
        (fun row acc => row.1 :: row.2.1 :: acc) []) =
      l.foldr (fun e acc => e.x :: e.y :: acc) [] := by
  induction l with
  | nil => rfl
  | cons h t ih => simp [ih]

theorem typeTags_sub (l : List SubstrateParticle) :
    ((l.map fun p => ((p.x, p.y, p.type, p.energy) : ℝ × ℝ × PType × ℝ)).map
        fun row => row.2.2.1) = l.map (·.type) := by
  induction l with
  | nil => rfl
  | cons h t ih => simp [ih]

theorem typeTags_energy (l : List EnergyParticle) :
    ((l.map fun e => ((e.x, e.y, PType.Energy, (1.0 : ℝ)) : ℝ × ℝ × PType × ℝ)).map
        fun row => row.2.2.1) = List.replicate l.length PType.Energy := by
  induction l with
  | nil => rfl
  | cons h t ih => simp [ih, List.replicate_succ]

/-- C1: for every state, the exportState buffers satisfy
`positions.length = 2 * types.length = 2 * energies.length`; the type
buffer is the active substrate particles' type tags followed by one
Energy tag per active energy particle; and the flat position buffer is
the substrate coordinate pairs followed by the energy coordinate pairs —
one pair per active particle, energy entries appended after substrate
entries. -/
theorem C1_export_buffers (s : SimState) :
    (Simulation.exportState s).positions.length =
        2 * (Simulation.exportState s).types.length ∧
    2 * (Simulation.exportState s).types.length =
        2 * (Simulation.exportState s).energies.length ∧
    (Simulation.exportState s).types =
      (((s.particles.map (·.2)).filter fun p => p.active).map (·.type)) ++
        List.replicate ((s.energyParticles.map (·.2)).filter fun p => p.active).length
          PType.Energy ∧
    (Simulation.exportState s).positions =
      (((s.particles.map (·.2)).filter fun p => p.active).foldr
          (fun p acc => p.x :: p.y :: acc) []) ++
        (((s.energyParticles.map (·.2)).filter fun p => p.active).foldr
          (fun e acc => e.x :: e.y :: acc) []) := by
  refine ⟨?_, ?_, ?_, ?_⟩
  · simp only [Simulation.exportState]
    rw [rowsFlat_length]
    simp [List.length_append]
  · simp only [Simulation.exportState]
    simp [List.length_append]
  · simp only [Simulation.exportState]
    rw [List.map_append, typeTags_sub, typeTags_energy]
  · simp only [Simulation.exportState]
    rw [rowsFlat_append, rowsFlat_sub, rowsFlat_energy]

/-! ## Phase bookkeeping: what each phase leaves untouched -/

theorem move_frameCount_comm (r : Rand) (s : SimState) (n : ℕ) :
    Simulation.updateAndMoveParticles r { s with frameCount := n } =
      ((Simulation.updateAndMoveParticles r s).1,
        { (Simulation.updateAndMoveParticles r s).2 with frameCount := n }) := by
  simp only [Simulation.updateAndMoveParticles]
  split <;> rfl

theorem inflow_frameCount_comm (r : Rand) (s : SimState) (n : ℕ) :
    Simulation.handleEnergyInflow r { s with frameCount := n } =
      ((Simulation.handleEnergyInflow r s).1,
        { (Simulation.handleEnergyInflow r s).2 with frameCount := n }) := rfl

theorem react_frameCount_comm (r : Rand) (s : SimState) (n : ℕ) :
    Simulation.processReactionsAndDiscovery r { s with frameCount := n } =
      ((Simulation.processReactionsAndDiscovery r s).1,
        { (Simulation.processReactionsAndDiscovery r s).2 with frameCount := n }) := by
  simp only [Simulation.processReactionsAndDiscovery]
  split <;> rfl

theorem cleanup_frameCount_comm (s : SimState) (n : ℕ) :
    Simulation.cleanupInactiveParticles { s with frameCount := n } =
      { Simulation.cleanupInactiveParticles s with frameCount := n } := rfl

theorem move_frameCount (r : Rand) (s : SimState) :
    (Simulation.updateAndMoveParticles r s).2.frameCount = s.frameCount := by
  simp only [Simulation.updateAndMoveParticles]
  split <;> rfl

theorem inflow_frameCount (r : Rand) (s : SimState) :
    (Simulation.handleEnergyInflow r s).2.frameCount = s.frameCount := rfl

theorem react_frameCount (r : Rand) (s : SimState) :
    (Simulation.processReactionsAndDiscovery r s).2.frameCount = s.frameCount := by
  simp only [Simulation.processReactionsAndDiscovery]
  split <;> rfl

theorem cleanup_frameCount (s : SimState) :
    (Simulation.cleanupInactiveParticles s).frameCount = s.frameCount := rfl

theorem move_catalog (r : Rand) (s : SimState) :
    (Simulation.updateAndMoveParticles r s).2.reactionCatalog = s.reactionCatalog := by
  simp only [Simulation.updateAndMoveParticles]
  split <;> rfl

theorem inflow_catalog (r : Rand) (s : SimState) :
    (Simulation.handleEnergyInflow r s).2.reactionCatalog = s.reactionCatalog := rfl

theorem react_catalog (r : Rand) (s : SimState) :
    (Simulation.processReactionsAndDiscovery r s).2.reactionCatalog = s.reactionCatalog := by
  simp only [Simulation.processReactionsAndDiscovery]
  split <;> rfl

theorem cleanup_catalog (s : SimState) :
    (Simulation.cleanupInactiveParticles s).reactionCatalog = s.reactionCatalog := rfl

/-- C4: step() performs exactly motion+collision, energy inflow, reaction
detection/execution, lifecycle cleanup in that fixed order, and its
result is identical to the run in which the frame counter is incremented
by exactly one as the final action after cleanup (no phase reads or
writes the frame counter, so the source's increment-first tick is
extensionally the increment-last tick); the tick leaves
frameCount = old frameCount + 1. -/
theorem C4_phase_order (r : Rand) (s : SimState) :
    Simulation.step r s = stepCounterLast r s ∧
    (Simulation.step r s).2.frameCount = s.frameCount + 1 := by
  have hchain : Simulation.step r s = stepCounterLast r s := by
    simp only [Simulation.step, stepCounterLast]
    rw [move_frameCount_comm, inflow_frameCount_comm, react_frameCount_comm,
      cleanup_frameCount_comm]
    rw [cleanup_frameCount, react_frameCount, inflow_frameCount, move_frameCount]
  refine ⟨hchain, ?_⟩
  rw [hchain]
  simp only [stepCounterLast]
  rw [cleanup_frameCount, react_frameCount, inflow_frameCount, move_frameCount]

/-- C7: the reaction catalog of the fixed-catalog revision is never
mutated after initialization: a tick (step) and a parameter update leave
the catalog untouched, so a lookup of any canonical pair key returns the
identical reactant/catalyst/product/efficiency record before and after
either operation. -/
theorem C7_catalog_stability (r : Rand) (s : SimState) (n : PartialParams) :
    (Simulation.step r s).2.reactionCatalog = s.reactionCatalog ∧
    (Simulation.updateParams n s).reactionCatalog = s.reactionCatalog ∧
    (∀ key : ℕ × ℕ,
      jsGet (Simulation.step r s).2.reactionCatalog key = jsGet s.reactionCatalog key) ∧
    (∀ key : ℕ × ℕ,
      jsGet (Simulation.updateParams n s).reactionCatalog key =
        jsGet s.reactionCatalog key) := by
  have h1 : (Simulation.step r s).2.reactionCatalog = s.reactionCatalog := by
    simp only [Simulation.step]
    rw [cleanup_catalog, react_catalog, inflow_catalog, move_catalog]
  exact ⟨h1, rfl, fun key => by rw [h1], fun key => rfl⟩

/-- C6 counterexample: supplying the out-of-range value particleRadius = -1
through updateParams is not rejected: the stored radius becomes -1 and the
prior value 5 is not retained.  (No validation, rejection path, or
enumerated-reason report exists anywhere in the constructor or in
updateParams.) -/
theorem C6_counterexample :
    (Simulation.updateParams { particleRadius := some (-1) } sampleState).params.particleRadius
        = -1 ∧
    sampleState.params.particleRadius = 5 :=
  ⟨rfl, rfl⟩

/-- C6 (as amended): updateParams validates nothing: it unconditionally
merges the supplied partial configuration over the stored parameters
(spread semantics; the cached Lx/Ly mirrors additionally update only when
the supplied value is truthy), and every other piece of engine state —
particle stores, catalog, frame counter, id counter, reaction counter —
is left unchanged; there is no rejection and no reported reason. -/
theorem C6_updateParams_no_validation (s : SimState) (n : PartialParams) :
    (Simulation.updateParams n s).params = mergeParams s.params n ∧
    (Simulation.updateParams n s).particles = s.particles ∧
    (Simulation.updateParams n s).energyParticles = s.energyParticles ∧
    (Simulation.updateParams n s).reactionCatalog = s.reactionCatalog ∧
    (Simulation.updateParams n s).frameCount = s.frameCount ∧
    (Simulation.updateParams n s).nextId = s.nextId ∧
    (Simulation.updateParams n s).totalReactions = s.totalReactions ∧
    (∀ Q : SimulationParams, (SimState.new Q).params = Q) :=
  ⟨rfl, rfl, rfl, rfl, rfl, rfl, rfl, fun _ => rfl⟩

section JsMapLemmas

variable {κ α : Type} [DecidableEq κ]

theorem jsGet_nil (k : κ) : jsGet ([] : JsMap κ α) k = none := rfl

theorem jsGet_cons (kv : κ × α) (rest : JsMap κ α) (k : κ) :
    jsGet (kv :: rest) k = if kv.1 = k then some kv.2 else jsGet rest k := by
  by_cases h : kv.1 = k <;> simp [jsGet, List.find?_cons, h]

theorem jsUpdate_nil (k : κ) (f : α → α) : jsUpdate ([] : JsMap κ α) k f = [] := rfl

theorem jsUpdate_cons (kv : κ × α) (rest : JsMap κ α) (k : κ) (f : α → α) :
    jsUpdate (kv :: rest) k f =
      (if kv.1 = k then (kv.1, f kv.2) else kv) :: jsUpdate rest k f := by
  by_cases h : kv.1 = k <;> simp [jsUpdate, h]

theorem jsCount_nil (p : α → Bool) : jsCount p ([] : JsMap κ α) = 0 := rfl

theorem jsCount_cons (p : α → Bool) (kv : κ × α) (rest : JsMap κ α) :
    jsCount p (kv :: rest) = (if p kv.2 = true then 1 else 0) + jsCount p rest := by
  by_cases h : p kv.2 <;> simp [jsCount, List.filter_cons, h] <;> omega

theorem jsGet_update_self (m : JsMap κ α) (k : κ) (f : α → α) (v : α)
    (h : jsGet m k = some v) : jsGet (jsUpdate m k f) k = some (f v) := by
  induction m with
  | nil => simp [jsGet_nil] at h
  | cons kv rest ih =>
    rw [jsGet_cons] at h
    rw [jsUpdate_cons]
    by_cases hk : kv.1 = k
    · rw [if_pos hk] at h ⊢
      rw [jsGet_cons]
      simp at h
      simp [hk, h]
    · rw [if_neg hk] at h ⊢
      rw [jsGet_cons, if_neg hk]
      exact ih h

theorem jsGet_update_ne (m : JsMap κ α) (k k' : κ) (f : α → α) (h : k' ≠ k) :
    jsGet (jsUpdate m k f) k' = jsGet m k' := by
  induction m with
  | nil => rfl
  | cons kv rest ih =>
    rw [jsUpdate_cons, jsGet_cons, jsGet_cons]
    by_cases hk : kv.1 = k
    · rw [if_pos hk]
      have h1 : kv.1 ≠ k' := by rw [hk]; exact fun e => h e.symm
      simp only []
      rw [if_neg (by simpa [hk] using h1), if_neg h1]
      exact ih
    · rw [if_neg hk]
      by_cases hk' : kv.1 = k'
      · rw [if_pos hk', if_pos hk']
      · rw [if_neg hk', if_neg hk']
        exact ih

theorem jsUpdate_absent (m : JsMap κ α) (k : κ) (f : α → α)
    (h : ∀ kv ∈ m, kv.1 ≠ k) : jsUpdate m k f = m := by
  induction m with
  | nil => rfl
  | cons kv rest ih =>
    rw [jsUpdate_cons, if_neg (h kv (List.mem_cons_self kv rest))]
    rw [ih fun x hx => h x (List.mem_cons_of_mem kv hx)]

theorem jsSet_fresh (m : JsMap κ α) (k : κ) (v : α)
    (h : ∀ kv ∈ m, kv.1 ≠ k) : jsSet m k v = m ++ [(k, v)] := by
  have hhas : jsHas m k = false := by
    rw [jsHas, List.any_eq_false]
    intro kv hkv
    simpa using h kv hkv
  simp [jsSet, hhas]

theorem jsGet_append (m m' : JsMap κ α) (k : κ) :
    jsGet (m ++ m') k = (jsGet m k).or (jsGet m' k) := by
  induction m with
  | nil => simp [jsGet_nil]
  | cons kv rest ih =>
    rw [List.cons_append, jsGet_cons, jsGet_cons]
    by_cases hk : kv.1 = k
    · rw [if_pos hk, if_pos hk]
      rfl
    · rw [if_neg hk, if_neg hk, ih]

theorem jsGet_singleton_self (k : κ) (v : α) : jsGet ([(k, v)] : JsMap κ α) k = some v := by
  rw [jsGet_cons]
  simp

theorem jsGet_none_of_absent (m : JsMap κ α) (k : κ) (h : ∀ kv ∈ m, kv.1 ≠ k) :
    jsGet m k = none := by
  induction m with
  | nil => rfl
  | cons kv rest ih =>
    rw [jsGet_cons, if_neg (h kv (List.mem_cons_self kv rest))]
    exact ih fun x hx => h x (List.mem_cons_of_mem kv hx)

theorem jsCount_append (p : α → Bool) (m m' : JsMap κ α) :
    jsCount p (m ++ m') = jsCount p m + jsCount p m' := by
  simp [jsCount, List.filter_append]

theorem jsCount_singleton (p : α → Bool) (k : κ) (v : α) :
    jsCount p ([(k, v)] : JsMap κ α) = if p v = true then 1 else 0 := by
  by_cases h : p v <;> simp [jsCount, h]

theorem jsCount_update_pres (p : α → Bool) (m : JsMap κ α) (k : κ) (f : α → α)
    (h : ∀ a, p (f a) = p a) : jsCount p (jsUpdate m k f) = jsCount p m := by
  induction m with
  | nil => rfl
  | cons kv rest ih =>
    rw [jsUpdate_cons, jsCount_cons, jsCount_cons, ih]
    by_cases hk : kv.1 = k
    · rw [if_pos hk]
      simp [h kv.2]
    · rw [if_neg hk]

theorem jsCount_update_off (p : α → Bool) (m : JsMap κ α) (k : κ) (f : α → α) (v : α)
    (hnodup : (m.map (·.1)).Nodup) (hget : jsGet m k = some v)
    (hv : p v = true) (hfv : p (f v) = false) :
    jsCount p (jsUpdate m k f) + 1 = jsCount p m := by
  induction m with
  | nil => simp [jsGet_nil] at hget
  | cons kv rest ih =>
    rw [List.map_cons, List.nodup_cons] at hnodup
    rw [jsGet_cons] at hget
    rw [jsUpdate_cons, jsCount_cons, jsCount_cons]
    by_cases hk : kv.1 = k
    · rw [if_pos hk] at hget ⊢
      have hvv : kv.2 = v := by simpa using hget
      have habs : ∀ x ∈ rest, x.1 ≠ k := by
        intro x hx e
        apply hnodup.1
        rw [hk, ← e]
        exact List.mem_map_of_mem (·.1) hx
      rw [jsUpdate_absent rest k f habs, hvv]
      simp [hfv, hv]
      omega
    · rw [if_neg hk] at hget ⊢
      have := ih hnodup.2 hget
      by_cases hp : p kv.2 = true <;> simp [hp] <;> omega

end JsMapLemmas

section JsMapMore

variable {κ α : Type} [DecidableEq κ]

theorem jsGet_mem (m : JsMap κ α) (k : κ) (v : α) (h : jsGet m k = some v) :
    (k, v) ∈ m := by
  induction m with
  | nil => simp [jsGet_nil] at h
  | cons kv rest ih =>
    rw [jsGet_cons] at h
    by_cases hk : kv.1 = k
    · rw [if_pos hk] at h
      have h2 : kv.2 = v := by simpa using h
      rw [← hk, ← h2]
      exact List.mem_cons_self kv rest
    · rw [if_neg hk] at h
      exact List.mem_cons_of_mem kv (ih h)

theorem jsUpdate_keys (m : JsMap κ α) (k : κ) (f : α → α) :
    (jsUpdate m k f).map (·.1) = m.map (·.1) := by
  induction m with
  | nil => rfl
  | cons kv rest ih =>
    rw [jsUpdate_cons]
    by_cases hk : kv.1 = k <;> simp [hk] <;> rw [← ih] <;> rfl

theorem bound_of_update {n : ℕ} {α : Type} (m : JsMap ℕ α) (k : ℕ) (f : α → α)
    (h : ∀ kv ∈ m, kv.1 < n) : ∀ kv ∈ jsUpdate m k f, kv.1 < n := by
  intro kv hkv
  have hmem : kv.1 ∈ (jsUpdate m k f).map (·.1) := List.mem_map_of_mem _ hkv
  rw [jsUpdate_keys] at hmem
  obtain ⟨kv0, hkv0, heq⟩ := List.mem_map.1 hmem
  exact heq ▸ h kv0 hkv0

end JsMapMore

/-- The distance of a product spawned at a random angle from its anchor. -/
theorem hypot_cos_sin (angle d : ℝ) (hd : 0 ≤ d) :
    hypot (Real.cos angle * d) (Real.sin angle * d) = d :=
  hypot_smul_unit (Real.cos_sq_add_sin_sq angle) hd

/-- C2 (as amended): provided the stored non-catalyst reactant entry is
still active when the reaction fires (hpr — the pair loop never rechecks
substrate activity, so a reactant consumed earlier in the same pass can
be selected again, and then the net is +2 active substrate with zero
reactant deactivations instead), a successful executeReaction
deactivates exactly one energy carrier (the donor; all other energy
entries are untouched) and exactly one substrate particle (the
non-catalyst reactant per the source's catalyst rule), creates exactly
two new active substrate particles of the entry's product types with
full visualization intensity at distance between 3r and 7r from the
catalyst, and increments the total-reactions counter by one — netting
+1 active substrate particle and −1 active energy carrier. -/
theorem C2_reaction_conservation
    (P : SimulationParams) (ctx : ReactCtx) (p1 p2 : SubstrateParticle) (eId : ℕ)
    (rxn : Reaction) (pr pc : SubstrateParticle) (pe : EnergyParticle)
    (hnodup : (ctx.particles.map (·.1)).Nodup)
    (hnodupE : (ctx.energyParticles.map (·.1)).Nodup)
    (hfresh : ∀ kv ∈ ctx.particles, kv.1 < ctx.nextId)
    (hr : jsGet ctx.particles (if p1.type = rxn.catalyst then p2 else p1).id = some pr)
    (hpr : pr.active = true)
    (hc : jsGet ctx.particles (if p1.type = rxn.catalyst then p1 else p2).id = some pc)
    (he : jsGet ctx.energyParticles eId = some pe)
    (hpe : pe.active = true)
    (hid : p1.id ≠ p2.id)
    (hrad : 0 ≤ P.particleRadius)
    (hrand : ∀ k, 0 ≤ ctx.rand.s k ∧ ctx.rand.s k ≤ 1) :
    (Simulation.executeReaction P ctx p1 p2 eId rxn).totalReactions =
        ctx.totalReactions + 1 ∧
    (Simulation.executeReaction P ctx p1 p2 eId rxn).nextId = ctx.nextId + 2 ∧
    jsCount (fun p => p.active) (Simulation.executeReaction P ctx p1 p2 eId rxn).particles =
        jsCount (fun p => p.active) ctx.particles + 1 ∧
    jsCount (fun p => p.active)
        (Simulation.executeReaction P ctx p1 p2 eId rxn).energyParticles + 1 =
      jsCount (fun p => p.active) ctx.energyParticles ∧
    jsGet (Simulation.executeReaction P ctx p1 p2 eId rxn).energyParticles eId =
        some { pe with active := false } ∧
    (∀ k : ℕ, k ≠ eId →
      jsGet (Simulation.executeReaction P ctx p1 p2 eId rxn).energyParticles k =
        jsGet ctx.energyParticles k) ∧
    jsGet (Simulation.executeReaction P ctx p1 p2 eId rxn).particles
        (if p1.type = rxn.catalyst then p2 else p1).id = some { pr with active := false } ∧
    (∃ x y : ℝ,
      jsGet (Simulation.executeReaction P ctx p1 p2 eId rxn).particles ctx.nextId =
        some ⟨ctx.nextId, x, y, true, 1.0, rxn.product1, P.particleLifespan⟩ ∧
      P.particleRadius * 3 ≤
        hypot (x - (if p1.type = rxn.catalyst then p1 else p2).x)
          (y - (if p1.type = rxn.catalyst then p1 else p2).y) ∧
      hypot (x - (if p1.type = rxn.catalyst then p1 else p2).x)
          (y - (if p1.type = rxn.catalyst then p1 else p2).y) ≤ P.particleRadius * 7) ∧
    (∃ x y : ℝ,
      jsGet (Simulation.executeReaction P ctx p1 p2 eId rxn).particles (ctx.nextId + 1) =
        some ⟨ctx.nextId + 1, x, y, true, 1.0, rxn.product2, P.particleLifespan⟩ ∧
      P.particleRadius * 3 ≤
        hypot (x - (if p1.type = rxn.catalyst then p1 else p2).x)
          (y - (if p1.type = rxn.catalyst then p1 else p2).y) ∧
      hypot (x - (if p1.type = rxn.catalyst then p1 else p2).x)
          (y - (if p1.type = rxn.catalyst then p1 else p2).y) ≤ P.particleRadius * 7) := by
  have hridlt : (if p1.type = rxn.catalyst then p2 else p1).id < ctx.nextId :=
    hfresh _ (jsGet_mem _ _ _ hr)
  have hcidlt : (if p1.type = rxn.catalyst then p1 else p2).id < ctx.nextId :=
    hfresh _ (jsGet_mem _ _ _ hc)
  have hcidrid : (if p1.type = rxn.catalyst then p1 else p2).id ≠
      (if p1.type = rxn.catalyst then p2 else p1).id := by
    by_cases h : p1.type = rxn.catalyst
    · rw [if_pos h, if_pos h]
      exact hid
    · rw [if_neg h, if_neg h]
      exact Ne.symm hid
  simp only [Simulation.executeReaction, Rand.next]
  set cat := if p1.type = rxn.catalyst then p1 else p2 with hcat
  set rea := if p1.type = rxn.catalyst then p2 else p1 with hrea
  set ps1 := jsUpdate ctx.particles rea.id (fun p => { p with active := false }) with hps1
  set n1 := SubstrateParticle.mkNew ctx.nextId
    (cat.x + Real.cos (ctx.rand.s ctx.rand.k * 2 * Real.pi) *
      (P.particleRadius * 2 * (1.5 + ctx.rand.s (ctx.rand.k + 1) * 2.0)))
    (cat.y + Real.sin (ctx.rand.s ctx.rand.k * 2 * Real.pi) *
      (P.particleRadius * 2 * (1.5 + ctx.rand.s (ctx.rand.k + 1) * 2.0)))
    rxn.product1 P.particleLifespan with hn1
  set n2 := SubstrateParticle.mkNew (ctx.nextId + 1)
    (cat.x + Real.cos (ctx.rand.s (ctx.rand.k + 1 + 1) * 2 * Real.pi) *
      (P.particleRadius * 2 * (1.5 + ctx.rand.s (ctx.rand.k + 1 + 1 + 1) * 2.0)))
    (cat.y + Real.sin (ctx.rand.s (ctx.rand.k + 1 + 1) * 2 * Real.pi) *
      (P.particleRadius * 2 * (1.5 + ctx.rand.s (ctx.rand.k + 1 + 1 + 1) * 2.0)))
    rxn.product2 P.particleLifespan with hn2
  set ps2 := jsSet ps1 ctx.nextId n1 with hps2
  set ps3 := jsSet ps2 (ctx.nextId + 1) n2 with hps3
  set ps4 := jsUpdate ps3 cat.id (fun p => { p with energy := min 1 (p.energy + 0.5) }) with hps4
  set ps5 := jsUpdate ps4 ctx.nextId (fun p => { p with energy := 1.0 }) with hps5
  set ps6 := jsUpdate ps5 (ctx.nextId + 1) (fun p => { p with energy := 1.0 }) with hps6
  set es1 := jsUpdate ctx.energyParticles eId (fun e => { e with active := false }) with hes1
  -- key bounds along the chain
  have hb1 : ∀ kv ∈ ps1, kv.1 < ctx.nextId := by
    rw [hps1]
    exact bound_of_update _ _ _ hfresh
  have hfresh1 : ∀ kv ∈ ps1, kv.1 ≠ ctx.nextId := fun kv h => ne_of_lt (hb1 kv h)
  have hset2 : ps2 = ps1 ++ [(ctx.nextId, n1)] := by
    rw [hps2]
    exact jsSet_fresh _ _ _ hfresh1
  have hb2 : ∀ kv ∈ ps2, kv.1 < ctx.nextId + 1 := by
    rw [hset2]
    intro kv hkv
    rcases List.mem_append.1 hkv with h | h
    · exact lt_trans (hb1 kv h) (Nat.lt_succ_self _)
    · rw [List.mem_singleton.1 h]
      exact Nat.lt_succ_self _
  have hfresh2 : ∀ kv ∈ ps2, kv.1 ≠ ctx.nextId + 1 := fun kv h => ne_of_lt (hb2 kv h)
  have hset3 : ps3 = ps2 ++ [(ctx.nextId + 1, n2)] := by
    rw [hps3]
    exact jsSet_fresh _ _ _ hfresh2
  -- the deactivated reactant through the chain
  have hg1 : jsGet ps1 rea.id = some { pr with active := false } := by
    rw [hps1]
    exact jsGet_update_self _ _ _ _ hr
  have hg3 : jsGet ps3 rea.id = some { pr with active := false } := by
    rw [hset3, jsGet_append, hset2, jsGet_append, hg1]
    rfl
  have hg6 : jsGet ps6 rea.id = some { pr with active := false } := by
    rw [hps6, jsGet_update_ne _ _ _ _ (ne_of_lt (lt_trans hridlt (Nat.lt_succ_self _))),
      hps5, jsGet_update_ne _ _ _ _ (ne_of_lt hridlt),
      hps4, jsGet_update_ne _ _ _ _ (Ne.symm hcidrid)]
    exact hg3
  -- product 1 through the chain
  have hgn1a : jsGet ps2 ctx.nextId = some n1 := by
    rw [hset2, jsGet_append, jsGet_none_of_absent ps1 _ hfresh1, jsGet_singleton_self]
    rfl
  have hgn1b : jsGet ps3 ctx.nextId = some n1 := by
    rw [hset3, jsGet_append, hgn1a]
    rfl
  have hgn1 : jsGet ps6 ctx.nextId = some { n1 with energy := 1.0 } := by
    rw [hps6, jsGet_update_ne _ _ _ _ (by omega : ctx.nextId ≠ ctx.nextId + 1),
      hps5, jsGet_update_self _ _ _ _ (by
        rw [hps4, jsGet_update_ne _ _ _ _ (Ne.symm (ne_of_lt hcidlt))]
        exact hgn1b)]
  -- product 2 through the chain
  have hgn2a : jsGet ps3 (ctx.nextId + 1) = some n2 := by
    rw [hset3, jsGet_append, jsGet_none_of_absent ps2 _ hfresh2, jsGet_singleton_self]
    rfl
  have hgn2 : jsGet ps6 (ctx.nextId + 1) = some { n2 with energy := 1.0 } := by
    rw [hps6, jsGet_update_self _ _ _ _ (by
      rw [hps5, jsGet_update_ne _ _ _ _ (by omega : ctx.nextId + 1 ≠ ctx.nextId),
        hps4, jsGet_update_ne _ _ _ _
          (Ne.symm (ne_of_lt (lt_trans hcidlt (Nat.lt_succ_self _))))]
      exact hgn2a)]
  -- active counts along the chain
  have hc1 : jsCount (fun p => p.active) ps1 + 1 = jsCount (fun p => p.active) ctx.particles := by
    rw [hps1]
    exact jsCount_update_off _ _ _ _ pr hnodup hr hpr rfl
  have hc2 : jsCount (fun p => p.active) ps2 = jsCount (fun p => p.active) ps1 + 1 := by
    rw [hset2, jsCount_append, jsCount_singleton, hn1]
    simp [SubstrateParticle.mkNew]
  have hc3 : jsCount (fun p => p.active) ps3 = jsCount (fun p => p.active) ps2 + 1 := by
    rw [hset3, jsCount_append, jsCount_singleton, hn2]
    simp [SubstrateParticle.mkNew]
  have hc6 : jsCount (fun p => p.active) ps6 = jsCount (fun p => p.active) ps3 := by
    rw [hps6, jsCount_update_pres (fun p => p.active) ps5 (ctx.nextId + 1)
        (fun p => { p with energy := 1.0 }) (by intro a; rfl),
      hps5, jsCount_update_pres (fun p => p.active) ps4 ctx.nextId
        (fun p => { p with energy := 1.0 }) (by intro a; rfl),
      hps4, jsCount_update_pres (fun p => p.active) ps3 cat.id
        (fun p => { p with energy := min 1 (p.energy + 0.5) }) (by intro a; rfl)]
  -- energy store facts
  have hev : jsGet es1 eId = some { pe with active := false } := by
    rw [hes1]
    exact jsGet_update_self _ _ _ _ he
  have heo : ∀ k : ℕ, k ≠ eId → jsGet es1 k = jsGet ctx.energyParticles k := by
    intro k hk
    rw [hes1]
    exact jsGet_update_ne _ _ _ _ hk
  have hec : jsCount (fun p => p.active) es1 + 1 =
      jsCount (fun p => p.active) ctx.energyParticles := by
    rw [hes1]
    exact jsCount_update_off _ _ _ _ pe hnodupE he hpe rfl
  -- distances of the two products from the catalyst
  have hu2 := hrand (ctx.rand.k + 1)
  have hu4 := hrand (ctx.rand.k + 1 + 1 + 1)
  have hd1 : (0 : ℝ) ≤ P.particleRadius * 2 * (1.5 + ctx.rand.s (ctx.rand.k + 1) * 2.0) := by
    have : (0 : ℝ) ≤ 1.5 + ctx.rand.s (ctx.rand.k + 1) * 2.0 := by nlinarith [hu2.1]
    nlinarith
  have hd2 : (0 : ℝ) ≤ P.particleRadius * 2 *
      (1.5 + ctx.rand.s (ctx.rand.k + 1 + 1 + 1) * 2.0) := by
    have : (0 : ℝ) ≤ 1.5 + ctx.rand.s (ctx.rand.k + 1 + 1 + 1) * 2.0 := by nlinarith [hu4.1]
    nlinarith
  refine ⟨trivial, trivial, ?_, ?_, hev, heo, hg6, ?_, ?_⟩
  · omega
  · exact hec
  · refine ⟨n1.x, n1.y, ?_, ?_, ?_⟩
    · rw [hgn1, hn1]
      rfl
    · rw [hn1]
      simp only [SubstrateParticle.mkNew]
      rw [show cat.x + Real.cos (ctx.rand.s ctx.rand.k * 2 * Real.pi) *
          (P.particleRadius * 2 * (1.5 + ctx.rand.s (ctx.rand.k + 1) * 2.0)) - cat.x =
          Real.cos (ctx.rand.s ctx.rand.k * 2 * Real.pi) *
          (P.particleRadius * 2 * (1.5 + ctx.rand.s (ctx.rand.k + 1) * 2.0)) by ring,
        show cat.y + Real.sin (ctx.rand.s ctx.rand.k * 2 * Real.pi) *
          (P.particleRadius * 2 * (1.5 + ctx.rand.s (ctx.rand.k + 1) * 2.0)) - cat.y =
          Real.sin (ctx.rand.s ctx.rand.k * 2 * Real.pi) *
          (P.particleRadius * 2 * (1.5 + ctx.rand.s (ctx.rand.k + 1) * 2.0)) by ring,
        hypot_cos_sin _ _ hd1]
      nlinarith [hu2.1, hrad]
    · rw [hn1]
      simp only [SubstrateParticle.mkNew]
      rw [show cat.x + Real.cos (ctx.rand.s ctx.rand.k * 2 * Real.pi) *
          (P.particleRadius * 2 * (1.5 + ctx.rand.s (ctx.rand.k + 1) * 2.0)) - cat.x =
          Real.cos (ctx.rand.s ctx.rand.k * 2 * Real.pi) *
          (P.particleRadius * 2 * (1.5 + ctx.rand.s (ctx.rand.k + 1) * 2.0)) by ring,
        show cat.y + Real.sin (ctx.rand.s ctx.rand.k * 2 * Real.pi) *
          (P.particleRadius * 2 * (1.5 + ctx.rand.s (ctx.rand.k + 1) * 2.0)) - cat.y =
          Real.sin (ctx.rand.s ctx.rand.k * 2 * Real.pi) *
          (P.particleRadius * 2 * (1.5 + ctx.rand.s (ctx.rand.k + 1) * 2.0)) by ring,
        hypot_cos_sin _ _ hd1]
      nlinarith [hu2.2, hrad]
  · refine ⟨n2.x, n2.y, ?_, ?_, ?_⟩
    · rw [hgn2, hn2]
      rfl
    · rw [hn2]
      simp only [SubstrateParticle.mkNew]
      rw [show cat.x + Real.cos (ctx.rand.s (ctx.rand.k + 1 + 1) * 2 * Real.pi) *
          (P.particleRadius * 2 * (1.5 + ctx.rand.s (ctx.rand.k + 1 + 1 + 1) * 2.0)) - cat.x =
          Real.cos (ctx.rand.s (ctx.rand.k + 1 + 1) * 2 * Real.pi) *
          (P.particleRadius * 2 * (1.5 + ctx.rand.s (ctx.rand.k + 1 + 1 + 1) * 2.0)) by ring,
        show cat.y + Real.sin (ctx.rand.s (ctx.rand.k + 1 + 1) * 2 * Real.pi) *
          (P.particleRadius * 2 * (1.5 + ctx.rand.s (ctx.rand.k + 1 + 1 + 1) * 2.0)) - cat.y =
          Real.sin (ctx.rand.s (ctx.rand.k + 1 + 1) * 2 * Real.pi) *
          (P.particleRadius * 2 * (1.5 + ctx.rand.s (ctx.rand.k + 1 + 1 + 1) * 2.0)) by ring,
        hypot_cos_sin _ _ hd2]
      nlinarith [hu4.1, hrad]
    · rw [hn2]
      simp only [SubstrateParticle.mkNew]
      rw [show cat.x + Real.cos (ctx.rand.s (ctx.rand.k + 1 + 1) * 2 * Real.pi) *
          (P.particleRadius * 2 * (1.5 + ctx.rand.s (ctx.rand.k + 1 + 1 + 1) * 2.0)) - cat.x =
          Real.cos (ctx.rand.s (ctx.rand.k + 1 + 1) * 2 * Real.pi) *
          (P.particleRadius * 2 * (1.5 + ctx.rand.s (ctx.rand.k + 1 + 1 + 1) * 2.0)) by ring,
        show cat.y + Real.sin (ctx.rand.s (ctx.rand.k + 1 + 1) * 2 * Real.pi) *
          (P.particleRadius * 2 * (1.5 + ctx.rand.s (ctx.rand.k + 1 + 1 + 1) * 2.0)) - cat.y =
          Real.sin (ctx.rand.s (ctx.rand.k + 1 + 1) * 2 * Real.pi) *
          (P.particleRadius * 2 * (1.5 + ctx.rand.s (ctx.rand.k + 1 + 1 + 1) * 2.0)) by ring,
        hypot_cos_sin _ _ hd2]
      nlinarith [hu4.2, hrad]

/-- C2 witness: the conservation theorem applied to the concrete A+B+donor
scenario. -/
theorem C2_reaction_conservation_witness :
    (Simulation.executeReaction sampleParams c2ctx c2pA c2pB 10 c2rxn).totalReactions =
        c2ctx.totalReactions + 1 ∧
    (Simulation.executeReaction sampleParams c2ctx c2pA c2pB 10 c2rxn).nextId =
        c2ctx.nextId + 2 ∧
    jsCount (fun p => p.active)
        (Simulation.executeReaction sampleParams c2ctx c2pA c2pB 10 c2rxn).particles =
      jsCount (fun p => p.active) c2ctx.particles + 1 ∧
    jsCount (fun p => p.active)
        (Simulation.executeReaction sampleParams c2ctx c2pA c2pB 10 c2rxn).energyParticles + 1 =
      jsCount (fun p => p.active) c2ctx.energyParticles := by
  have h := C2_reaction_conservation sampleParams c2ctx c2pA c2pB 10 c2rxn c2pB c2pA c2eE
    (by decide) (by decide) (by decide) rfl rfl rfl rfl rfl (by decide)
    (by norm_num [sampleParams]) (by intro k; constructor <;> norm_num [c2ctx])
  exact ⟨h.1, h.2.1, h.2.2.1, h.2.2.2.1⟩

/-- C2 counterexample: the pair loop never rechecks substrate activity,
so a reactant already consumed by an earlier reaction of the same pass
can fire again with a second donor.  On the mid-pass context (stored
entry of B already inactive) the execution adds two active products
while the deactivation of the stale reactant is a no-op: the net change
is +2 active substrate particles (not +1) and zero substrate
deactivations, refuting the unconditional conservation statement. -/
theorem C2_stale_reactant_counterexample :
    jsCount (fun p => p.active)
        (Simulation.executeReaction sampleParams c2ctxStale c2pA c2pBdead 10 c2rxn).particles =
      jsCount (fun p => p.active) c2ctxStale.particles + 2 ∧
    jsCount (fun p => p.active)
        (Simulation.executeReaction sampleParams c2ctxStale c2pA c2pBdead 10
          c2rxn).energyParticles + 1 =
      jsCount (fun p => p.active) c2ctxStale.energyParticles ∧
    jsGet (Simulation.executeReaction sampleParams c2ctxStale c2pA c2pBdead 10 c2rxn).particles
        1 = some c2pBdead ∧
    c2pBdead.active = false :=
  ⟨rfl, rfl, rfl, rfl⟩

theorem foldl_induct {α β : Type} (P : β → Prop) (f : β → α → β) (l : List α) (init : β)
    (h0 : P init) (hstep : ∀ b a, P b → P (f b a)) : P (l.foldl f init) := by
  induction l generalizing init with
  | nil => exact h0
  | cons a rest ih => exact ih (f init a) (hstep init a h0)

theorem jsSet_mem_imp {κ α : Type} [DecidableEq κ] (m : JsMap κ α) (k : κ) (v : α)
    (kv : κ × α) (h : kv ∈ jsSet m k v) : kv ∈ m ∨ kv.2 = v := by
  by_cases hhas : jsHas m k
  · simp only [jsSet, if_pos hhas] at h
    obtain ⟨kv0, hkv0, heq⟩ := List.mem_map.1 h
    by_cases hk : kv0.1 = k
    · right
      rw [← heq, if_pos hk]
    · left
      rw [← heq, if_neg hk]
      exact hkv0
  · simp only [jsSet, if_neg hhas] at h
    rcases List.mem_append.1 h with h | h
    · exact Or.inl h
    · right
      rw [List.mem_singleton.1 h]

theorem jsUpdate_mem_imp {κ α : Type} [DecidableEq κ] (m : JsMap κ α) (k : κ) (f : α → α)
    (kv : κ × α) (h : kv ∈ jsUpdate m k f) :
    ∃ kv0 ∈ m, kv.2 = kv0.2 ∨ kv.2 = f kv0.2 := by
  obtain ⟨kv0, hkv0, heq⟩ := List.mem_map.1 h
  refine ⟨kv0, hkv0, ?_⟩
  by_cases hk : kv0.1 = k
  · right
    rw [← heq, if_pos hk]
  · left
    rw [← heq, if_neg hk]

theorem EInv_jsSet (m : JsMap ℕ SubstrateParticle) (k : ℕ) (v : SubstrateParticle)
    (hm : EInv m) (hv : 0 ≤ v.energy ∧ v.energy ≤ 1) : EInv (jsSet m k v) := by
  intro kv hkv
  rcases jsSet_mem_imp m k v kv hkv with h | h
  · exact hm kv h
  · rw [h]
    exact hv

theorem EInv_jsUpdate_pres (m : JsMap ℕ SubstrateParticle) (k : ℕ)
    (f : SubstrateParticle → SubstrateParticle) (hm : EInv m)
    (hf : ∀ a, (f a).energy = a.energy) : EInv (jsUpdate m k f) := by
  intro kv hkv
  obtain ⟨kv0, h0, hc⟩ := jsUpdate_mem_imp m k f kv hkv
  rcases hc with h | h
  · rw [h]
    exact hm kv0 h0
  · rw [h, hf]
    exact hm kv0 h0

theorem EInv_jsUpdate_bounded (m : JsMap ℕ SubstrateParticle) (k : ℕ)
    (f : SubstrateParticle → SubstrateParticle) (hm : EInv m)
    (hf : ∀ a, 0 ≤ a.energy ∧ a.energy ≤ 1 → 0 ≤ (f a).energy ∧ (f a).energy ≤ 1) :
    EInv (jsUpdate m k f) := by
  intro kv hkv
  obtain ⟨kv0, h0, hc⟩ := jsUpdate_mem_imp m k f kv hkv
  rcases hc with h | h
  · rw [h]
    exact hm kv0 h0
  · rw [h]
    exact hf kv0.2 (hm kv0 h0)

theorem update_energy (p : SubstrateParticle) :
    (SubstrateParticle.update p).energy = p.energy := by
  simp only [SubstrateParticle.update]
  split <;> rfl

theorem EInv_life (m : JsMap ℕ SubstrateParticle) (hm : EInv m) :
    EInv (m.map fun kv => if kv.2.active then (kv.1, kv.2.update) else kv) := by
  intro kv hkv
  obtain ⟨kv0, h0, heq⟩ := List.mem_map.1 hkv
  by_cases hact : kv0.2.active
  · rw [← heq, if_pos hact]
    show 0 ≤ kv0.2.update.energy ∧ kv0.2.update.energy ≤ 1
    rw [update_energy]
    exact hm kv0 h0
  · rw [← heq, if_neg hact]
    exact hm kv0 h0

theorem EInv_applySteps (sx sy : JsMap ℕ ℝ) (l : List ℕ) (m : JsMap ℕ SubstrateParticle)
    (hm : EInv m) : EInv (applySteps sx sy l m) := by
  induction l generalizing m with
  | nil => exact hm
  | cons id rest ih =>
    exact ih _ (EInv_jsUpdate_pres _ _ _ hm fun a => rfl)

theorem EInv_collidePair (P : SimulationParams) (loss : ℝ)
    (st : JsMap ℕ SubstrateParticle × JsMap ℕ ℝ × JsMap ℕ ℝ) (pid qid : ℕ)
    (hm : EInv st.1) : EInv (collidePair P loss st pid qid).1 := by
  rcases hp : jsGet st.1 pid with _ | p <;> rcases hq : jsGet st.1 qid with _ | q <;>
    simp only [collidePair, hp, hq]
  · exact hm
  · exact hm
  · exact hm
  · split
    · exact hm
    · have gen : ∀ (m : JsMap ℕ SubstrateParticle) (k1 k2 : ℕ) (o : CollisionOut),
          EInv m →
          EInv (jsUpdate (jsUpdate m k1 fun a => { a with x := o.px, y := o.py }) k2
            fun a => { a with x := o.qx, y := o.qy }) := by
        intro m k1 k2 o hm'
        refine EInv_jsUpdate_pres _ _ _ (EInv_jsUpdate_pres _ _ _ hm' ?_) ?_ <;>
          intro a <;> rfl
      exact gen st.1 p.id q.id _ hm

theorem EInv_collideAll (P : SimulationParams) (loss cellSize : ℝ)
    (grid : JsMap (ℤ × ℤ) (List ℕ)) (l : List ℕ)
    (st : JsMap ℕ SubstrateParticle × JsMap ℕ ℝ × JsMap ℕ ℝ)
    (hst : EInv st.1) : EInv (collideAll P loss cellSize grid l st).1 := by
  induction l generalizing st with
  | nil => exact hst
  | cons pid rest ih =>
    simp only [collideAll]
    exact ih _ (foldl_induct (fun x => EInv x.1) _ _ _ hst
      fun x b hx => EInv_collidePair P loss x pid b hx)

theorem EInv_enforceBounds (Lx Ly : ℝ) (l : List ℕ) (m : JsMap ℕ SubstrateParticle)
    (hm : EInv m) : EInv (enforceBounds Lx Ly l m) := by
  induction l generalizing m with
  | nil => exact hm
  | cons id rest ih =>
    exact ih _ (EInv_jsUpdate_pres _ _ _ hm fun a => rfl)

theorem EInv_move (r : Rand) (s : SimState) (hm : EInv s.particles) :
    EInv ((Simulation.updateAndMoveParticles r s).2.particles) := by
  simp only [Simulation.updateAndMoveParticles]
  split
  · exact EInv_life _ hm
  · exact EInv_enforceBounds _ _ _ _
      (EInv_collideAll _ _ _ _ _ _ (EInv_applySteps _ _ _ _ (EInv_life _ hm)))

theorem EInv_execute (P : SimulationParams) (ctx : ReactCtx) (p1 p2 : SubstrateParticle)
    (eId : ℕ) (rxn : Reaction) (hm : EInv ctx.particles) :
    EInv (Simulation.executeReaction P ctx p1 p2 eId rxn).particles := by
  simp only [Simulation.executeReaction, Rand.next]
  apply EInv_jsUpdate_bounded _ _ _ _ (fun a ha => by norm_num)
  apply EInv_jsUpdate_bounded _ _ _ _ (fun a ha => by norm_num)
  apply EInv_jsUpdate_bounded _ _ _ _ (fun a ha =>
    ⟨le_min (by norm_num) (by linarith [ha.1]), min_le_left _ _⟩)
  apply EInv_jsSet _ _ _ _ (by constructor <;> norm_num [SubstrateParticle.mkNew])
  apply EInv_jsSet _ _ _ _ (by constructor <;> norm_num [SubstrateParticle.mkNew])
  exact EInv_jsUpdate_pres _ _ _ hm fun a => rfl

theorem EInv_attempt (P : SimulationParams) (catalog : JsMap (ℕ × ℕ) Reaction)
    (ctx : ReactCtx) (p1 p2 : SubstrateParticle) (eId : ℕ) (hm : EInv ctx.particles) :
    EInv (Simulation.attemptReaction P catalog ctx p1 p2 eId).particles := by
  rcases hg : jsGet catalog (getReactionKey p1.type p2.type) with _ | reaction <;>
    simp only [Simulation.attemptReaction, hg]
  · exact hm
  · split
    · exact EInv_execute _ _ _ _ _ _ hm
    · exact hm

theorem EInv_donor (P : SimulationParams) (catalog : JsMap (ℕ × ℕ) Reaction)
    (reactionRadius : ℝ) (p1 p2 : SubstrateParticle) (l : List EnergyParticle)
    (ctx : ReactCtx) (hm : EInv ctx.particles) :
    EInv (findDonorAndReact P catalog reactionRadius p1 p2 l ctx).particles := by
  induction l generalizing ctx with
  | nil => exact hm
  | cons e rest ih =>
    simp only [findDonorAndReact]
    split
    · split
      · exact EInv_attempt _ _ _ _ _ _ hm
      · exact ih _ hm
    · exact ih _ hm

theorem EInv_reactInner (P : SimulationParams) (catalog : JsMap (ℕ × ℕ) Reaction)
    (reactionRadius : ℝ) (activeEnergy : List EnergyParticle) (p1 : SubstrateParticle)
    (l : List SubstrateParticle) (ctx : ReactCtx) (hm : EInv ctx.particles) :
    EInv (reactInner P catalog reactionRadius activeEnergy p1 l ctx).particles := by
  induction l generalizing ctx with
  | nil => exact hm
  | cons p2 rest ih =>
    simp only [reactInner]
    apply ih
    split
    · exact EInv_donor _ _ _ _ _ _ _ hm
    · exact hm

theorem EInv_reactOuter (P : SimulationParams) (catalog : JsMap (ℕ × ℕ) Reaction)
    (reactionRadius : ℝ) (activeEnergy : List EnergyParticle)
    (l : List SubstrateParticle) (ctx : ReactCtx) (hm : EInv ctx.particles) :
    EInv (reactOuter P catalog reactionRadius activeEnergy l ctx).particles := by
  induction l generalizing ctx with
  | nil => exact hm
  | cons p1 rest ih =>
    simp only [reactOuter]
    exact ih _ (EInv_reactInner _ _ _ _ _ _ _ hm)

theorem EInv_react (r : Rand) (s : SimState) (hm : EInv s.particles) :
    EInv ((Simulation.processReactionsAndDiscovery r s).2.particles) := by
  simp only [Simulation.processReactionsAndDiscovery]
  split
  · exact hm
  · exact EInv_reactOuter _ _ _ _ _ _ hm

theorem EInv_cleanup (s : SimState) (hm : EInv s.particles) :
    EInv ((Simulation.cleanupInactiveParticles s).particles) := by
  intro kv hkv
  simp only [Simulation.cleanupInactiveParticles] at hkv
  obtain ⟨kv0, h0, heq⟩ := List.mem_map.1 hkv
  have h0' : kv0 ∈ s.particles := (List.mem_filter.1 h0).1
  have hb := hm kv0 h0'
  rw [← heq]
  exact ⟨le_max_left _ _, max_le (by norm_num) (by linarith [hb.2])⟩

theorem EInv_createInitial (P : SimulationParams) (Lx Ly : ℝ) (type : PType) (n : ℕ)
    (m : JsMap ℕ SubstrateParticle) (nid : ℕ) (r : Rand) (hm : EInv m) :
    EInv (createInitialParticles P Lx Ly type n m nid r).1 := by
  induction n generalizing m nid r with
  | zero => exact hm
  | succ n ih =>
    simp only [createInitialParticles, Rand.next]
    apply ih
    exact EInv_jsSet _ _ _ hm (by constructor <;> norm_num [SubstrateParticle.mkNew])

theorem EInv_init (r : Rand) (s : SimState) :
    EInv ((Simulation.initState r s).2.particles) := by
  simp only [Simulation.initState]
  exact EInv_createInitial _ _ _ _ _ _ _ _
    (EInv_createInitial _ _ _ _ _ _ _ _
      (EInv_createInitial _ _ _ _ _ _ _ _
        (EInv_createInitial _ _ _ _ _ _ _ _
          (EInv_createInitial _ _ _ _ _ _ _ _
            fun kv h => absurd h (List.not_mem_nil kv)))))

/-- C10: in every reachable state, every stored substrate particle's
visualization energy lies in [0, 1]: particles are created at 0 or set to
1.0 as reaction products, the catalyst boost saturates at 1 through
min(1, e + 0.5), and the per-tick decay floors at 0 through
max(0, e − 0.05). -/
theorem C10_energy_in_unit_interval (s : SimState) (h : ReachableSim s) :
    ∀ kv ∈ s.particles, 0 ≤ kv.2.energy ∧ kv.2.energy ≤ 1 := by
  induction h with
  | construct P => intro kv hkv; exact absurd hkv (List.not_mem_nil kv)
  | init r s hs ih => exact EInv_init r s
  | tick r s hs ih =>
    show EInv (Simulation.step r s).2.particles
    simp only [Simulation.step]
    exact EInv_cleanup _ (EInv_react _ _ (EInv_move _ _ ih))
  | update n s hs ih => exact ih

/-- C10 witness: the invariant theorem applied to the concrete initialized
engine state c10s, read back at key 0. -/
theorem C10_energy_in_unit_interval_witness :
    0 ≤ energyAt c10s 0 ∧ energyAt c10s 0 ≤ 1 := by
  have h := C10_energy_in_unit_interval c10s
    (ReachableSim.init ⟨fun _ => 0, 0⟩ (SimState.new sampleParams)
      (ReachableSim.construct sampleParams))
  cases hg : jsGet c10s.particles 0 with
  | none => simp [energyAt, hg]
  | some p =>
    have hm := jsGet_mem c10s.particles 0 p hg
    have hp := h (0, p) hm
    simpa [energyAt, hg] using hp

/-! ## List helpers for the worker pool -/

theorem getD_set_false (l : List Bool) (i : ℕ) : (l.set i false).getD i false = false := by
  by_cases h : i < l.length
  · simp [List.getD_eq_getElem?_getD, List.getElem?_set_self h]
  · rw [List.set_eq_of_length_le (le_of_not_lt h)]
    simp [List.getD_eq_getElem?_getD, List.getElem?_eq_none (le_of_not_lt h)]

theorem getD_set_ne (l : List Bool) (i j : ℕ) (b : Bool) (h : j ≠ i) :
    (l.set i b).getD j false = l.getD j false := by
  simp [List.getD_eq_getElem?_getD, List.getElem?_set_ne fun e => h e.symm]

theorem pop_mem (l : List ℕ) (a : ℕ) (h : l.getLast? = some a) : a ∈ l := by
  have h2 : a ∈ l.getLast? := by rw [h]; rfl
  obtain ⟨hne, heq⟩ := List.mem_getLast?_eq_getLast h2
  rw [heq]
  exact List.getLast_mem hne

theorem pop_decomp (l : List ℕ) (a : ℕ) (h : l.getLast? = some a) :
    l.dropLast ++ [a] = l := by
  have hne : l ≠ [] := by
    intro e
    rw [e] at h
    simp at h
  rw [List.getLast?_eq_getLast l hne] at h
  have ha : a = l.getLast hne := by simpa using h.symm
  rw [ha]
  exact List.dropLast_append_getLast hne

theorem pop_not_mem_dropLast (l : List ℕ) (a : ℕ) (h : l.getLast? = some a)
    (hnd : l.Nodup) : a ∉ l.dropLast := by
  have hd := pop_decomp l a h
  rw [← hd] at hnd
  intro hmem
  exact (List.disjoint_of_nodup_append hnd) hmem (List.mem_singleton.2 rfl)

theorem dropLast_nodup (l : List ℕ) (h : l.Nodup) : l.dropLast.Nodup :=
  h.sublist (List.dropLast_sublist l)

theorem dropLast_subset (l : List ℕ) : ∀ a ∈ l.dropLast, a ∈ l :=
  fun _ ha => (List.dropLast_sublist l).subset ha

theorem getD_replicate_false (pc i : ℕ) :
    (List.replicate pc false).getD i false = false := by
  simp only [List.getD_eq_getElem?_getD, List.getElem?_replicate]
  split <;> rfl

theorem descRange_nodup (pc : ℕ) : (((List.range pc).map fun i => pc - 1 - i)).Nodup := by
  refine List.Nodup.map_on ?_ (List.nodup_range pc)
  intro x hx y hy hxy
  rw [List.mem_range] at hx hy
  omega

namespace Worker

theorem popActivate_WF (s : WState) (pId : ℕ)
    (h : poolWF s) (hpop : s.inactiveIndices.getLast? = some pId)
    (s' : WState)
    (hpool : s'.inactiveIndices = s.inactiveIndices.dropLast)
    (hact : s'.p_active = s.p_active.set pId true) : poolWF s' := by
  constructor
  · rw [hpool]
    exact dropLast_nodup _ h.1
  · intro j hj
    rw [hpool] at hj
    have hjl : j ∈ s.inactiveIndices := dropLast_subset _ _ hj
    have hne : j ≠ pId := fun e => pop_not_mem_dropLast _ _ hpop h.1 (e ▸ hj)
    rw [hact, getD_set_ne _ _ _ _ hne]
    exact h.2 j hjl

theorem popActivate_active (s : WState) (pId : ℕ)
    (hpop : s.inactiveIndices.getLast? = some pId)
    (s' : WState)
    (hact : s'.p_active = s.p_active.set pId true) :
    ∀ i, (s'.p_active.getD i false) = true →
      (s.p_active.getD i false) = true ∨ i ∈ s.inactiveIndices := by
  intro i hi
  by_cases he : i = pId
  · right
    rw [he]
    exact pop_mem _ _ hpop
  · left
    rw [hact, getD_set_ne _ _ _ _ he] at hi
    exact hi

theorem spawnLoop_facts (n : ℕ) (s : WState) (r : Rand) (h : poolWF s) :
    poolWF (spawnLoop n s r).2 ∧
    (∀ i, isActive (spawnLoop n s r).2 i = true →
      isActive s i = true ∨ i ∈ s.inactiveIndices) := by
  induction n generalizing s r with
  | zero => exact ⟨h, fun i hi => Or.inl hi⟩
  | succ n ih =>
    simp only [spawnLoop]
    cases hpop : s.inactiveIndices.getLast? with
    | none => exact ⟨h, fun i hi => Or.inl hi⟩
    | some pId =>
      simp only [Rand.next]
      have hWF' := popActivate_WF s pId h hpop
        { { s with inactiveIndices := s.inactiveIndices.dropLast } with
          p_active := s.p_active.set pId true
          p_type := s.p_type.set pId Monomer
          p_x := s.p_x.set pId (r.s r.k * s.params.inflowStripWidth)
          p_y := s.p_y.set pId (r.s (r.k + 1) * s.params.Ly)
          p_angle := s.p_angle.set pId 0
          p_lineageId := s.p_lineageId.set pId 0 } rfl rfl
      obtain ⟨hWFf, hactf⟩ := ih _ ⟨r.s, r.k + 1 + 1⟩ hWF'
      refine ⟨hWFf, ?_⟩
      intro i hi
      rcases hactf i hi with hi' | hi'
      · rcases popActivate_active s pId hpop _ rfl i hi' with h1 | h1
        · exact Or.inl h1
        · exact Or.inr h1
      · exact Or.inr (dropLast_subset _ _ hi')

theorem seedLoop_WF (n : ℕ) (s : WState) (r : Rand) (h : poolWF s) :
    poolWF (seedLoop n s r).2 := by
  induction n generalizing s r with
  | zero => exact h
  | succ n ih =>
    simp only [seedLoop]
    cases hpop : s.inactiveIndices.getLast? with
    | none => exact h
    | some pId =>
      simp only [Rand.next]
      exact ih _ _ (popActivate_WF s pId h hpop _ rfl rfl)

theorem deactPush_list (pact : List Bool) (pool : List ℕ) (i : ℕ)
    (hnd : pool.Nodup) (hmem : ∀ j ∈ pool, pact.getD j false = false)
    (hact : pact.getD i false = true) :
    (pool ++ [i]).Nodup ∧
    (∀ j ∈ pool ++ [i], (pact.set i false).getD j false = false) ∧
    (∀ j, (pact.set i false).getD j false = true → pact.getD j false = true) ∧
    (∀ j, j ∈ pool ++ [i] → j ∈ pool ∨ pact.getD j false = true) := by
  have hinotpool : i ∉ pool := by
    intro hm
    rw [hmem i hm] at hact
    exact Bool.false_ne_true hact
  refine ⟨?_, ?_, ?_, ?_⟩
  · rw [List.nodup_append]
    exact ⟨hnd, List.nodup_singleton i,
      fun a ha hb => hinotpool ((List.mem_singleton.1 hb) ▸ ha)⟩
  · intro j hj
    rcases List.mem_append.1 hj with hj | hj
    · have hne : j ≠ i := fun e => hinotpool (e ▸ hj)
      rw [getD_set_ne _ _ _ _ hne]
      exact hmem j hj
    · rw [List.mem_singleton.1 hj]
      exact getD_set_false _ _
  · intro j hj
    by_cases he : j = i
    · exfalso
      rw [he, getD_set_false] at hj
      exact Bool.false_ne_true hj
    · rw [getD_set_ne _ _ _ _ he] at hj
      exact hj
  · intro j hj
    rcases List.mem_append.1 hj with hj | hj
    · exact Or.inl hj
    · right
      rw [List.mem_singleton.1 hj]
      exact hact

theorem motionLoop_facts (d : ℝ) (l : List ℕ) (s : WState) (r : Rand) (h : poolWF s) :
    poolWF (motionLoop d l s r).2 ∧
    (∀ i, isActive (motionLoop d l s r).2 i = true → isActive s i = true) ∧
    (∀ i, i ∈ (motionLoop d l s r).2.inactiveIndices →
      i ∈ s.inactiveIndices ∨ isActive s i = true) := by
  induction l generalizing s r with
  | nil => exact ⟨h, fun i hi => hi, fun i hi => Or.inl hi⟩
  | cons i rest ih =>
    simp only [motionLoop]
    by_cases hact : s.p_active.getD i false = true
    · rw [if_pos hact]
      simp only [Rand.next]
      have hdeact : ∀ (s' : WState) (r' : Rand),
          s'.p_active = s.p_active.set i false →
          s'.inactiveIndices = s.inactiveIndices ++ [i] →
          poolWF (motionLoop d rest s' r').2 ∧
          (∀ j, isActive (motionLoop d rest s' r').2 j = true → isActive s j = true) ∧
          (∀ j, j ∈ (motionLoop d rest s' r').2.inactiveIndices →
            j ∈ s.inactiveIndices ∨ isActive s j = true) := by
        intro s' r' hpa hpool
        obtain ⟨hnd', hmem', htrans, hpoolTrans⟩ :=
          deactPush_list s.p_active s.inactiveIndices i h.1 h.2 hact
        have hWF' : poolWF s' := by
          constructor
          · rw [hpool]
            exact hnd'
          · intro j hj
            rw [hpool] at hj
            rw [hpa]
            exact hmem' j hj
        obtain ⟨f1, f2, f3⟩ := ih s' r' hWF'
        refine ⟨f1, ?_, ?_⟩
        · intro j hj
          have h2 := f2 j hj
          rw [isActive, hpa] at h2
          exact htrans j h2
        · intro j hj
          rcases f3 j hj with hj' | hj'
          · rw [hpool] at hj'
            exact hpoolTrans j hj'
          · rw [isActive, hpa] at hj'
            exact Or.inr (htrans j hj')
      have hkeep : ∀ (s' : WState) (r' : Rand),
          s'.p_active = s.p_active →
          s'.inactiveIndices = s.inactiveIndices →
          poolWF (motionLoop d rest s' r').2 ∧
          (∀ j, isActive (motionLoop d rest s' r').2 j = true → isActive s j = true) ∧
          (∀ j, j ∈ (motionLoop d rest s' r').2.inactiveIndices →
            j ∈ s.inactiveIndices ∨ isActive s j = true) := by
        intro s' r' hpa hpool
        have hWF' : poolWF s' := by
          constructor
          · rw [hpool]
            exact h.1
          · intro j hj
            rw [hpool] at hj
            rw [hpa]
            exact h.2 j hj
        obtain ⟨f1, f2, f3⟩ := ih s' r' hWF'
        refine ⟨f1, ?_, ?_⟩
        · intro j hj
          have h2 := f2 j hj
          rw [isActive, hpa] at h2
          exact h2
        · intro j hj
          rcases f3 j hj with hj' | hj'
          · rw [hpool] at hj'
            exact Or.inl hj'
          · rw [isActive, hpa] at hj'
            exact Or.inr hj'
      split <;> split <;>
        first
          | exact hdeact _ _ rfl rfl
          | exact hkeep _ _ rfl rfl
    · rw [if_neg hact]
      exact ih _ _ h

theorem init_WF (P : WParams) (r : Rand) (s : WState) : poolWF (Worker.init P r s).2 := by
  apply seedLoop_WF
  constructor
  · exact descRange_nodup P.particleCount
  · intro i _
    exact getD_replicate_false _ _

theorem tick_pool_facts (r : Rand) (s : WState) (h : poolWF s) :
    poolWF (Worker.tick r s).2 ∧
    (∀ i, isActive (Worker.tick r s).2 i = true →
      isActive s i = true ∨ (i ∈ s.inactiveIndices ∧ isActive s i = false)) := by
  simp only [Worker.tick]
  split
  · exact ⟨h, fun i hi => Or.inl hi⟩
  · have hs1 : poolWF { s with frameCount := s.frameCount + 1 } := ⟨h.1, h.2⟩
    obtain ⟨hmWF, hmAct, hmPool⟩ := motionLoop_facts
      (Real.sqrt (2 * s.params.diffusionCoefficient * s.params.dt))
      (List.range s.params.particleCount) { s with frameCount := s.frameCount + 1 } r hs1
    split
    · obtain ⟨hsWF, hsAct⟩ := spawnLoop_facts _ _ _ hmWF
      refine ⟨hsWF, ?_⟩
      intro i hi
      rcases hsAct i hi with h1 | h1
      · exact Or.inl (hmAct i h1)
      · rcases hmPool i h1 with h2 | h2
        · exact Or.inr ⟨h2, h.2 i h2⟩
        · exact Or.inl h2
    · exact ⟨hmWF, fun i hi => Or.inl (hmAct i hi)⟩

end Worker

section KeyProvenance

variable {κ α : Type} [DecidableEq κ]

theorem jsUpdate_mem_key (m : JsMap κ α) (k : κ) (f : α → α) (kv : κ × α)
    (h : kv ∈ jsUpdate m k f) : ∃ kv0 ∈ m, kv.1 = kv0.1 := by
  obtain ⟨kv0, hkv0, heq⟩ := List.mem_map.1 h
  refine ⟨kv0, hkv0, ?_⟩
  by_cases hk : kv0.1 = k
  · rw [← heq, if_pos hk]
  · rw [← heq, if_neg hk]

theorem jsSet_mem_key (m : JsMap κ α) (k : κ) (v : α) (kv : κ × α)
    (h : kv ∈ jsSet m k v) : (∃ kv0 ∈ m, kv.1 = kv0.1) ∨ kv.1 = k := by
  by_cases hhas : jsHas m k
  · simp only [jsSet, if_pos hhas] at h
    obtain ⟨kv0, hkv0, heq⟩ := List.mem_map.1 h
    by_cases hk : kv0.1 = k
    · right
      rw [← heq, if_pos hk]
    · left
      exact ⟨kv0, hkv0, by rw [← heq, if_neg hk]⟩
  · simp only [jsSet, if_neg hhas] at h
    rcases List.mem_append.1 h with h | h
    · exact Or.inl ⟨kv, h, rfl⟩
    · right
      rw [List.mem_singleton.1 h]

end KeyProvenance

/-- Every entry of the particle store after executeReaction either keeps
the key of a pre-existing entry or carries one of the two fresh ids
nextId and nextId + 1 handed out by the id counter. -/
theorem executeReaction_key_provenance (P : SimulationParams) (ctx : ReactCtx)
    (p1 p2 : SubstrateParticle) (eId : ℕ) (rxn : Reaction) :
    ∀ kv ∈ (Simulation.executeReaction P ctx p1 p2 eId rxn).particles,
      (∃ kv0 ∈ ctx.particles, kv.1 = kv0.1) ∨
        kv.1 = ctx.nextId ∨ kv.1 = ctx.nextId + 1 := by
  simp only [Simulation.executeReaction, Rand.next]
  intro kv hkv
  obtain ⟨kv5, h5, he5⟩ := jsUpdate_mem_key _ _ _ _ hkv
  obtain ⟨kv4, h4, he4⟩ := jsUpdate_mem_key _ _ _ _ h5
  obtain ⟨kv3, h3, he3⟩ := jsUpdate_mem_key _ _ _ _ h4
  rcases jsSet_mem_key _ _ _ _ h3 with ⟨kv2, h2, he2⟩ | hk
  · rcases jsSet_mem_key _ _ _ _ h2 with ⟨kv1, h1, he1⟩ | hk
    · obtain ⟨kv0, h0, he0⟩ := jsUpdate_mem_key _ _ _ _ h1
      exact Or.inl ⟨kv0, h0, by rw [he5, he4, he3, he2, he1, he0]⟩
    · right
      left
      rw [he5, he4, he3, he2]
      exact hk
  · right
    right
    rw [he5, he4, he3]
    exact hk

/-- C3 counterexample: in the Simulation class a reaction product is
spawned with the fresh id nextId = 2 even though no id has ever been
deactivated (every stored particle is active and id 2 was never used),
so reaction-product spawns do not draw from a set of previously
deactivated ids. -/
theorem C3_fresh_id_counterexample :
    (jsGet (Simulation.executeReaction sampleParams c2ctx c2pA c2pB 10 c2rxn).particles 2).isSome
        = true ∧
    (∀ kv ∈ c2ctx.particles, kv.2.active = true) ∧
    (∀ kv ∈ c2ctx.particles, kv.1 ≠ 2) := by
  exact ⟨rfl, by decide, by decide⟩

/-- C3 (as amended): id recycling lives in the worker, not in the
Simulation class.  In the worker, the inactiveIndices stack is allocated
full at init and is well-formed there and after every tick (no
duplicates, every pooled id inactive), and any slot that is active after
a tick was either already active before it or was taken from the
pool — whose members are all previously deactivated (inactive) ids — so a
spawn never receives an id currently held by an active particle.  In the
Simulation class, spawned reaction products instead receive the fresh
monotonically increasing ids nextId and nextId + 1; every other store
entry keeps a pre-existing key. -/
theorem C3_free_list (P : Worker.WParams) (r : Rand) (s0 : Worker.WState)
    (s : Worker.WState) (h : Worker.poolWF s) :
    Worker.poolWF (Worker.init P r s0).2 ∧
    Worker.poolWF (Worker.tick r s).2 ∧
    (∀ i, Worker.isActive (Worker.tick r s).2 i = true →
      Worker.isActive s i = true ∨
        (i ∈ s.inactiveIndices ∧ Worker.isActive s i = false)) ∧
    (∀ (Q : SimulationParams) (ctx : ReactCtx) (p1 p2 : SubstrateParticle)
        (eId : ℕ) (rxn : Reaction),
      ∀ kv ∈ (Simulation.executeReaction Q ctx p1 p2 eId rxn).particles,
        (∃ kv0 ∈ ctx.particles, kv.1 = kv0.1) ∨
          kv.1 = ctx.nextId ∨ kv.1 = ctx.nextId + 1) := by
  obtain ⟨h1, h2⟩ := Worker.tick_pool_facts r s h
  exact ⟨Worker.init_WF P r s0, h1, h2, executeReaction_key_provenance⟩

/-- C3 witness: the free-list theorem applied to the concrete running
worker state (slot 0 active, slot 1 pooled) and to the concrete
reaction context of the C2 scenario. -/
theorem C3_free_list_witness :
    Worker.poolWF (Worker.tick ⟨fun _ => 0, 0⟩ wrun).2 ∧
    (∀ kv ∈ (Simulation.executeReaction sampleParams c2ctx c2pA c2pB 10 c2rxn).particles,
      (∃ kv0 ∈ c2ctx.particles, kv.1 = kv0.1) ∨
        kv.1 = c2ctx.nextId ∨ kv.1 = c2ctx.nextId + 1) := by
  have h := C3_free_list wparams0 ⟨fun _ => 0, 0⟩ wstop wrun ⟨by decide, by decide⟩
  exact ⟨h.2.1, h.2.2.2 sampleParams c2ctx c2pA c2pB 10 c2rxn⟩

/-- C5: when the worker controller is not in a running state (the
uninitialized and the stopped/paused cases both have
simulationRunning = false), invoking the tick entry point is a complete
no-op: the particle arrays, free pool, frame counter, parameters and
every other piece of worker state are returned unchanged, and no
randomness is consumed. -/
theorem C5_tick_noop (r : Rand) (s : Worker.WState)
    (h : s.simulationRunning = false) : Worker.tick r s = (r, s) := by
  simp only [Worker.tick]
  rw [if_pos h]

/-- C5 witness: the no-op theorem at the concrete stopped worker state. -/
theorem C5_tick_noop_witness :
    Worker.tick ⟨fun _ => 0, 0⟩ wstop = (⟨fun _ => 0, 0⟩, wstop) :=
  C5_tick_noop ⟨fun _ => 0, 0⟩ wstop rfl

